import Mathlib

/-!
# Preflight checks of `minishift start` (cmd/minishift/cmd/start_preflight.go)

A shallow embedding of the check runner, the two phase orchestrators and the
check predicates of `start_preflight.go`, and theorems about them.

Conventions of the embedding

* The process is modelled by explicit state passing.  `Env σ` is what the Go
  code can read and write: standard output, the viper configuration store and
  an arbitrary further component `ext : σ` (anything else a predicate may touch:
  a counter, a file system, ...).
* `Proc σ` adds two ghost fields to the environment, which no Go code can read
  or write: the messages of the checks started so far and the number of
  predicate invocations so far.  They are only written by the runner, at the
  two places marked `ghost` below, and exist to state "started" and "invoked".
* A Go function that may end the process returns an `Outcome σ`: it either
  returned normally or the process exited with a status and a final message.
* Go strings are Lean strings.  The Go parsers below index bytes; the Lean
  versions walk characters.  Every byte test in them is an ASCII test, which a
  byte of a multi-byte character never passes, so both stop at the same place.
-/

namespace Preflight

/-! ## Process model -/

/-- The part of the process state Go code can observe and change. -/
structure Env (σ : Type) where
  /-- Everything written to standard output so far. -/
  stdout : String
  /-- The store behind `viper.GetBool`. -/
  viperBool : String → Bool
  /-- The store behind `viper.GetString`. -/
  viperString : String → String
  /-- Any other state a predicate can read or write. -/
  ext : σ

/-- The state of the process: the environment and the ghost history. -/
structure Proc (σ : Type) where
  env : Env σ
  /-- Ghost: messages of the checks started so far, oldest first. -/
  started : List String
  /-- Ghost: number of predicate invocations so far. -/
  invocations : Nat

/-- The result of running Go code that may terminate the process. -/
inductive Outcome (σ : Type) where
  /-- The code returned to its caller. -/
  | returned (p : Proc σ)
  /-- The process ended with exit status `code` and final message `msg`. -/
  | exited (p : Proc σ) (code : Int) (msg : String)

variable {σ : Type}

/-- The text written by `fmt.Print`-family calls is appended to stdout. -/
def Env.print (e : Env σ) (s : String) : Env σ :=
  { e with stdout := e.stdout ++ s }

/-- Go `fmt.Printf(s)` / `fmt.Print(s)` with the text already rendered. -/
def Proc.print (p : Proc σ) (s : String) : Proc σ :=
  { p with env := p.env.print s }

/-- Go `fmt.Println(s)` for a single string operand. -/
def Proc.println (p : Proc σ) (s : String) : Proc σ :=
  p.print (s ++ "\n")

/-- Sequential composition: the statement after a call runs only if the call
returned; an exited process stays exited. -/
def Outcome.andThen (o : Outcome σ) (f : Proc σ → Outcome σ) : Outcome σ :=
  match o with
  | .returned p => f p
  | .exited p code msg => .exited p code msg

/-- The process state an outcome ends in. -/
def Outcome.proc : Outcome σ → Proc σ
  | .returned p => p
  | .exited p _ _ => p

/-- Whether the outcome is a normal return. -/
def Outcome.isReturned : Outcome σ → Bool
  | .returned _ => true
  | .exited _ _ _ => false

/-- The exit status and final message, if the process ended. -/
def Outcome.exit : Outcome σ → Option (Int × String)
  | .returned _ => none
  | .exited _ code msg => some (code, msg)

/-- Modelled from the spec: `atexit.ExitWithMessage` (package
`pkg/util/os/atexit`, not part of the sources at hand).  The spec describes it
as `process.terminate(status, message) -> never`: it "prints the message and
ends the process with the given exit status; never returns".  The message is
recorded as the final message of the ended process. -/
def ExitWithMessage (code : Int) (msg : String) (p : Proc σ) : Outcome σ :=
  .exited p code msg

/-! ## The check runner -/

/-- Go `type preflightCheckFunc func() bool`. -/
abbrev preflightCheckFunc (σ : Type) := Env σ → Bool × Env σ

/-- The driver handle `drivers.Driver` (libmachine), as far as the source uses
it.  A Go result pair `(value, err)` is a pair whose second component is
`none` for `err == nil`. -/
structure Driver where
  /-- Method `driver.GetIP()`. -/
  GetIP : String × Option String
  /-- Function `drivers.RunSSHCommandFromDriver(driver, cmd)`. -/
  RunSSHCommandFromDriver : String → String × Option String

/-- Go `type preflightCheckWithDriverFunc func(driver drivers.Driver) bool`. -/
abbrev preflightCheckWithDriverFunc (σ : Type) := Driver → Env σ → Bool × Env σ

/-- Ghost: records that the check with this message has started. -/
def Proc.begin (p : Proc σ) (message : String) : Proc σ :=
  { p with started := p.started ++ [message] }

/-- The call `execute()`: runs the predicate on the environment
(ghost: and counts the invocation). -/
def Proc.invoke (p : Proc σ) (execute : preflightCheckFunc σ) : Bool × Proc σ :=
  let r := execute p.env
  (r.1, { p with env := r.2, invocations := p.invocations + 1 })

/-- Source lines 112-135. -/
def preflightCheckSucceedsOrFails (configNameOverrideIfSkipped : String)
    (execute : preflightCheckFunc σ) (message : String) (treatAsWarning : Bool)
    (configNameOverrideIfWarning : String) (errorMessage : String)
    (p : Proc σ) : Outcome σ :=
  let p := (p.begin message).print ("-- " ++ message ++ " ... ")
  let isConfiguredToSkip := p.env.viperBool configNameOverrideIfSkipped
  let isConfiguredToWarn := p.env.viperBool configNameOverrideIfWarning
  if isConfiguredToSkip then
    .returned (p.println "SKIP")
  else
    let r := p.invoke execute
    if r.1 then
      .returned (r.2.println "OK")
    else
      let p := r.2.println "FAIL"
      let errorMessage := "   " ++ errorMessage
      if isConfiguredToWarn || treatAsWarning then
        .returned (p.println errorMessage)
      else
        ExitWithMessage 1 errorMessage p

/-- Source lines 137-160. -/
def preflightCheckSucceedsOrFailsWithDriver (configNameOverrideIfSkipped : String)
    (execute : preflightCheckWithDriverFunc σ) (driver : Driver) (message : String)
    (treatAsWarning : Bool) (configNameOverrideIfWarning : String)
    (errorMessage : String) (p : Proc σ) : Outcome σ :=
  let p := (p.begin message).print ("-- " ++ message ++ " ... ")
  let isConfiguredToSkip := p.env.viperBool configNameOverrideIfSkipped
  let isConfiguredToWarn := p.env.viperBool configNameOverrideIfWarning
  if isConfiguredToSkip then
    .returned (p.println "SKIP")
  else
    let r := p.invoke (execute driver)
    if r.1 then
      .returned (r.2.println "OK")
    else
      let p := r.2.println "FAIL"
      let errorMessage := "   " ++ errorMessage
      if isConfiguredToWarn || treatAsWarning then
        .returned (p.println errorMessage)
      else
        ExitWithMessage 1 errorMessage p

/-! ## Library functions the predicates call

These belong to the Go standard library, not to the program.  They are written
out after `strings`, `strconv` and `net` of the Go releases of the time of the
source (Go 1.8), restricted to the arguments the program passes. -/

/-- Go `strings.TrimLeft(s, cutset)`. -/
def TrimLeft (s cutset : String) : String :=
  ⟨s.data.dropWhile (fun c => cutset.data.contains c)⟩

/-- Go `strings.TrimRight(s, cutset)`. -/
def TrimRight (s cutset : String) : String :=
  ⟨(s.data.reverse.dropWhile (fun c => cutset.data.contains c)).reverse⟩

/-- Go `strings.Trim(s, cutset)`: leading and trailing characters of the
cutset removed. -/
def Trim (s cutset : String) : String :=
  TrimRight (TrimLeft s cutset) cutset

/-- The two errors of `strconv` (`ErrSyntax`, `ErrRange`). -/
inductive NumErr where
  | invalid
  | range
  deriving DecidableEq, Repr

/-- The largest `uint64`. -/
def maxUint64 : Nat := 2 ^ 64 - 1

/-- The digit value `strconv.ParseUint` gives a character, if any. -/
def digitValue (d : Char) : Option Nat :=
  if '0' ≤ d ∧ d ≤ '9' then some (d.toNat - '0'.toNat)
  else if 'a' ≤ d ∧ d ≤ 'z' then some (d.toNat - 'a'.toNat + 10)
  else if 'A' ≤ d ∧ d ≤ 'Z' then some (d.toNat - 'A'.toNat + 10)
  else none

/-- The digit loop of `strconv.ParseUint`; `n` is the value so far.  The
arithmetic is on `uint64`: `n1` wraps around, which the source detects by
`n1 < n`. -/
def parseUintLoop (base cutoff maxVal : Nat) : List Char → Nat → Nat × Option NumErr
  | [], n => (n, none)
  | d :: rest, n =>
    match digitValue d with
    | none => (0, some .invalid)
    | some v =>
      if v ≥ base then (0, some .invalid)
      else if n ≥ cutoff then (maxUint64, some .range)
      else
        let n := n * base
        let n1 := (n + v) % 2 ^ 64
        if n1 < n ∨ n1 > maxVal then (maxUint64, some .range)
        else parseUintLoop base cutoff maxVal rest n1

/-- Go `strconv.ParseUint(s, base, bitSize)` for `2 ≤ base ≤ 36` and
`bitSize > 0`. -/
def ParseUint (s : List Char) (base bitSize : Nat) : Nat × Option NumErr :=
  if s.length < 1 then (0, some .invalid)
  else parseUintLoop base (maxUint64 / base + 1) (2 ^ bitSize - 1) s 0

/-- Go `strconv.ParseInt(s, base, bitSize)` for `2 ≤ base ≤ 36` and
`bitSize > 0`: the pair `(i, err)`. -/
def ParseInt (s : String) (base bitSize : Nat) : Int × Option NumErr :=
  match s.data with
  | [] => (0, some .invalid)
  | c :: cs =>
    let neg := decide (c = '-')
    let body := if c = '+' ∨ c = '-' then cs else c :: cs
    match ParseUint body base bitSize with
    | (_, some .invalid) => (0, some .invalid)
    | (un, _) =>
      let cutoff := 2 ^ (bitSize - 1)
      if !neg ∧ un ≥ cutoff then ((cutoff : Nat) - 1, some .range)
      else if neg ∧ un > cutoff then (-(cutoff : Nat), some .range)
      else (if neg then -(un : Int) else (un : Int), none)

/-- An address as `net.IP`, a byte slice. -/
abbrev IP := List Nat

/-- Go `net.IPv4len`. -/
def IPv4len : Nat := 4

/-- Go `net.IPv6len`. -/
def IPv6len : Nat := 16

/-- Go `net.IPv4(a, b, c, d)`: the 16-byte form of an IPv4 address. -/
def IPv4 (a b c d : Nat) : IP :=
  [0, 0, 0, 0, 0, 0, 0, 0, 0, 0, 0xff, 0xff, a, b, c, d]

/-- The constant `big` of `net/parse.go`. -/
def big : Nat := 0xFFFFFF

/-- The loop of `dtoi`; `n` is the number so far, `i` the characters consumed. -/
def dtoiLoop : List Char → Nat → Nat → Nat × Nat × Bool
  | [], n, i => if i = 0 then (0, 0, false) else (n, i, true)
  | c :: cs, n, i =>
    if '0' ≤ c ∧ c ≤ '9' then
      let n := n * 10 + (c.toNat - '0'.toNat)
      if n ≥ big then (big, i, false) else dtoiLoop cs n (i + 1)
    else if i = 0 then (0, 0, false) else (n, i, true)

/-- Go `dtoi` (net/parse.go): decimal to integer; number, characters consumed,
success. -/
def dtoi (s : List Char) : Nat × Nat × Bool :=
  dtoiLoop s 0 0

/-- The hexadecimal digit value `xtoi` gives a character, if any. -/
def hexValue (c : Char) : Option Nat :=
  if '0' ≤ c ∧ c ≤ '9' then some (c.toNat - '0'.toNat)
  else if 'a' ≤ c ∧ c ≤ 'f' then some (c.toNat - 'a'.toNat + 10)
  else if 'A' ≤ c ∧ c ≤ 'F' then some (c.toNat - 'A'.toNat + 10)
  else none

/-- The loop of `xtoi`. -/
def xtoiLoop : List Char → Nat → Nat → Nat × Nat × Bool
  | [], n, i => if i = 0 then (0, i, false) else (n, i, true)
  | c :: cs, n, i =>
    match hexValue c with
    | some v =>
      let n := n * 16 + v
      if n ≥ big then (0, i, false) else xtoiLoop cs n (i + 1)
    | none => if i = 0 then (0, i, false) else (n, i, true)

/-- Go `xtoi` (net/parse.go): hexadecimal to integer. -/
def xtoi (s : List Char) : Nat × Nat × Bool :=
  xtoiLoop s 0 0

/-- The loop of `parseIPv4` with `k` octets still to read; `first` says that the
next octet is the first one (`i == 0`).  Yields the octets read and the rest of
the string, or `none` where the source returns `nil`. -/
def parseIPv4Octets : Nat → Bool → List Char → Option (List Nat × List Char)
  | 0, _, s => some ([], s)
  | k + 1, first, s =>
    if s.length = 0 then none
    else
      let afterDot : Option (List Char) :=
        if first then some s
        else match s with
          | '.' :: t => some t
          | _ => none
      match afterDot with
      | none => none
      | some s =>
        let r := dtoi s
        if !r.2.2 ∨ r.1 > 0xFF then none
        else
          match parseIPv4Octets k false (s.drop r.2.1) with
          | none => none
          | some (p, rest) => some (r.1 :: p, rest)

/-- Go `parseIPv4` (net/ip.go): an IPv4 address in dotted decimal form. -/
def parseIPv4 (s : List Char) : Option IP :=
  match parseIPv4Octets IPv4len true s with
  | some ([a, b, c, d], []) => some (IPv4 a b c d)
  | _ => none

/-- The main loop of `parseIPv6` with `slots` 16-bit groups still free, so that
the source's index is `i = IPv6len - 2 * slots` and its loop condition
`i < IPv6len` is `slots ≠ 0`.  `ellipsis` is `none` for the source's `-1`.
Yields `(ip, ellipsis, i, s)` as they are when the loop is left, or `none`
where the source returns `nil`. -/
def parseIPv6Loop : Nat → IP → Option Nat → List Char →
    Option (IP × Option Nat × Nat × List Char)
  | 0, ip, ellipsis, s => some (ip, ellipsis, IPv6len, s)
  | slots + 1, ip, ellipsis, s =>
    let i := IPv6len - 2 * (slots + 1)
    let r := xtoi s
    let n := r.1
    let c := r.2.1
    if !r.2.2 ∨ n > 0xFFFF then none
    else if c < s.length ∧ s.getD c ' ' = '.' then
      if ellipsis.isNone ∧ i ≠ IPv6len - IPv4len then none
      else if i + IPv4len > IPv6len then none
      else
        match parseIPv4 s with
        | none => none
        | some ip4 =>
          let ip := ip.set i (ip4.getD 12 0)
          let ip := ip.set (i + 1) (ip4.getD 13 0)
          let ip := ip.set (i + 2) (ip4.getD 14 0)
          let ip := ip.set (i + 3) (ip4.getD 15 0)
          some (ip, ellipsis, i + IPv4len, [])
    else
      let ip := ip.set i (n / 256)
      let ip := ip.set (i + 1) (n % 256)
      let i := i + 2
      let s := s.drop c
      if s.length = 0 then some (ip, ellipsis, i, s)
      else if s.getD 0 ' ' ≠ ':' ∨ s.length = 1 then none
      else
        let s := s.drop 1
        if s.getD 0 ' ' = ':' then
          if ellipsis.isSome then none
          else
            let s := s.drop 1
            if s.length = 0 then some (ip, some i, i, s)
            else parseIPv6Loop slots ip (some i) s
        else parseIPv6Loop slots ip ellipsis s

/-- The end of `parseIPv6`, after its main loop was left with `ip`,
`ellipsis`, `i` and `s`. -/
def parseIPv6Finish (ip : IP) (ellipsis : Option Nat) (i : Nat) (s : List Char) :
    Option IP :=
  -- Must have used entire string.
  if s.length ≠ 0 then none
  else if i < IPv6len then
    -- If didn't parse enough, expand ellipsis.
    match ellipsis with
    | none => none
    | some e =>
      let n := IPv6len - i
      let ip := (List.range' e (i - e)).reverse.foldl
        (fun ip j => ip.set (j + n) (ip.getD j 0)) ip
      let ip := (List.range' e n).reverse.foldl (fun ip j => ip.set j 0) ip
      some ip
  else if ellipsis.isSome then none
  else some ip

/-- The main loop of `parseIPv6` from `i = 0`, and what follows it. -/
def parseIPv6Rest (ip : IP) (ellipsis : Option Nat) (s : List Char) : Option IP :=
  match parseIPv6Loop (IPv6len / 2) ip ellipsis s with
  | none => none
  | some (ip, ellipsis, i, s) => parseIPv6Finish ip ellipsis i s

/-- Go `parseIPv6(s, false)` (net/ip.go): an IPv6 address, without zone. -/
def parseIPv6 (s : List Char) : Option IP :=
  let ip : IP := List.replicate IPv6len 0
  -- Might have leading ellipsis
  if s.length ≥ 2 ∧ s.getD 0 ' ' = ':' ∧ s.getD 1 ' ' = ':' then
    let s := s.drop 2
    -- Might be only ellipsis
    if s.length = 0 then some ip
    else parseIPv6Rest ip (some 0) s
  else parseIPv6Rest ip none s

/-- Go `net.ParseIP(s)`: `none` is the `nil` result. -/
def ParseIP (s : String) : Option IP :=
  match s.data.find? (fun c => c = '.' ∨ c = ':') with
  | some '.' => parseIPv4 s.data
  | some _ => parseIPv6 s.data
  | none => none

/-- Go `isZeros(p)` (net/ip.go). -/
def isZeros (p : IP) : Bool :=
  p.all (fun b => b == 0)

/-- Go `ip.To4()`: the 4-byte form of an IPv4 address, `none` (`nil`) if the
address is not an IPv4 address. -/
def To4 (ip : IP) : Option IP :=
  if ip.length = IPv4len then some ip
  else if ip.length = IPv6len ∧ isZeros (ip.take 10) ∧ ip.getD 10 0 = 0xff ∧
      ip.getD 11 0 = 0xff then
    some ((ip.drop 12).take 4)
  else none

/-! ## Collaborators outside the source file -/

/-- The names of the configuration flags of package `cmd/config`
(`startFlags.X.Name` in the source), which is not part of the sources at hand.
Each field is the key string of the flag of that name. -/
structure StartFlags where
  VmDriver : String
  SkipCheckXHyveDriver : String
  WarnCheckXHyveDriver : String
  SkipCheckKVMDriver : String
  SkipCheckHyperVDriver : String
  WarnCheckHyperVDriver : String
  SkipInstanceIP : String
  WarnInstanceIP : String
  SkipCheckNetworkPing : String
  WarnCheckNetworkPing : String
  SkipCheckNetworkHTTP : String
  WarnCheckNetworkHTTP : String
  SkipCheckStorageMount : String
  WarnCheckStorageMount : String
  SkipCheckStorageUsage : String
  WarnCheckStorageUsage : String
  CheckNetworkPingHost : String
  CheckNetworkHttpHost : String

/-- The two mode bits of `os.FileInfo` the source tests. -/
structure FileInfo where
  /-- Whether `fi.Mode()&os.ModeSymlink != 0`. -/
  modeSymlink : Bool
  /-- Whether `fi.Mode()&os.ModeSetuid != 0`. -/
  modeSetuid : Bool

/-- The host operating system and the helper packages, as far as the predicates
call them.  They are parameters of the embedding. -/
structure External (σ : Type) where
  /-- Go `exec.LookPath(file)`. -/
  LookPath : String → String × Option String
  /-- Go `os.Stat(path)`; the source discards its error. -/
  Stat : String → FileInfo
  /-- Go `os.Readlink(path)`. -/
  Readlink : String → String × Option String
  /-- Go `os.Getenv(key)`. -/
  Getenv : String → String
  /-- The text `fmt.Printf(format)` writes for a format without operands. -/
  PrintfFormat : String → String
  /-- Function `miniutil.IsIPReachable(driver, ip, showOutput)`. -/
  IsIPReachable : Driver → String → Bool → Env σ → Bool × Env σ
  /-- Function `miniutil.IsRetrievable(driver, url, showOutput)`. -/
  IsRetrievable : Driver → String → Bool → Env σ → Bool × Env σ

/-! ## The check predicates -/

/-- Source line 36. -/
def StorageDisk : String := "/mnt/sda1"

/-- Source lines 162-185. -/
def checkXhyveDriver (x : External σ) : preflightCheckFunc σ := fun e =>
  let r := x.LookPath "docker-machine-driver-xhyve"
  if r.2.isSome then (false, e)
  else
    let path := r.1
    let fi := x.Stat path
    let rest : String → Bool × Env σ := fun path =>
      let e := e.print ("\n   Driver is available at" ++ " " ++ path ++ "\n")
      let e := e.print "   Checking for setuid bit ... "
      if !fi.modeSetuid then (false, e)
      else (true, e)
    -- follow symlinks
    if fi.modeSymlink then
      let l := x.Readlink path
      if l.2.isSome then (false, e)
      else rest l.1
    else rest path

/-- Source lines 187-195. -/
def checkKvmDriver (x : External σ) : preflightCheckFunc σ := fun e =>
  let r := x.LookPath "docker-machine-driver-kvm"
  if r.2.isSome then (false, e)
  else
    (true, e.print (x.PrintfFormat ("\n   Driver is available at " ++ r.1 ++ " ... ")))

/-- Source lines 197-203. -/
def checkHypervDriver (x : External σ) : preflightCheckFunc σ := fun e =>
  let switchEnv := x.Getenv "HYPERV_VIRTUAL_SWITCH"
  if switchEnv = "" then (false, e)
  else (true, e)

/-- Source lines 208-214. -/
def checkInstanceIP : preflightCheckWithDriverFunc σ := fun driver e =>
  let r := driver.GetIP
  if r.2.isNone ∧ ((ParseIP r.1).bind To4).isSome then (true, e)
  else (false, e)

/-- Source lines 231-239. -/
def checkIPConnectivity (flags : StartFlags) (x : External σ) :
    preflightCheckWithDriverFunc σ := fun driver e =>
  let ipToPing := e.viperString flags.CheckNetworkPingHost
  let ipToPing := if ipToPing = "" then "8.8.8.8" else ipToPing
  let e := e.print ("\n   Pinging " ++ ipToPing ++ " ... ")
  x.IsIPReachable driver ipToPing false e

/-- Source lines 242-250. -/
def checkHttpConnectivity (flags : StartFlags) (x : External σ) :
    preflightCheckWithDriverFunc σ := fun driver e =>
  let urlToRetrieve := e.viperString flags.CheckNetworkHttpHost
  let urlToRetrieve :=
    if urlToRetrieve = "" then "http://minishift.io/index.html" else urlToRetrieve
  let e := e.print ("\n   Retrieving " ++ urlToRetrieve ++ " ... ")
  x.IsRetrievable driver urlToRetrieve false e

/-- Source lines 275-287. -/
def getDiskUsage (driver : Driver) (mountpoint : String) : String :=
  let cmd := "df -h " ++ mountpoint ++ " | awk \x27FNR > 1 \x7bprint $5\x7d\x27"
  let r := driver.RunSSHCommandFromDriver cmd
  if r.2.isSome then "ERR"
  else Trim r.1 "\n"

/-- Source lines 289-304. -/
def isMounted (driver : Driver) (mountpoint : String) : Bool × Option String :=
  let cmd := "if grep -qs " ++ mountpoint ++
    " /proc/mounts; then echo \x271\x27; else echo \x270\x27; fi"
  let r := driver.RunSSHCommandFromDriver cmd
  if r.2.isSome then (false, r.2)
  else if Trim r.1 "\n" = "0" then (false, none)
  else (true, none)

/-- Source lines 252-255. -/
def checkStorageMounted : preflightCheckWithDriverFunc σ := fun driver e =>
  let mounted := (isMounted driver StorageDisk).1
  (mounted, e)

/-- Source lines 257-273. -/
def checkStorageUsage : preflightCheckWithDriverFunc σ := fun driver e =>
  let usedPercentage := getDiskUsage driver StorageDisk
  let e := e.print (usedPercentage ++ " ")
  let usedPercentage := TrimRight usedPercentage "%"
  let r := ParseInt usedPercentage 10 8
  let usage := r.1
  if r.2.isSome then (false, e)
  else
    let e := if usage > 80 ∧ usage < 98 then e.print "!!! " else e
    if usage < 98 then (true, e)
    else (false, e)

/-! ## The two phases -/

/-- Source lines 39-63. -/
def preflightChecksBeforeStartingHost (flags : StartFlags) (x : External σ)
    (p : Proc σ) : Outcome σ :=
  let vmDriver := p.env.viperString flags.VmDriver
  if vmDriver = "xhyve" then
    preflightCheckSucceedsOrFails
      flags.SkipCheckXHyveDriver
      (checkXhyveDriver x)
      "Checking if xhyve driver is installed"
      false flags.WarnCheckXHyveDriver
      "See the \x27Setting Up the Driver Plug-in\x27 topic for more information" p
  else if vmDriver = "kvm" then
    preflightCheckSucceedsOrFails
      flags.SkipCheckKVMDriver
      (checkKvmDriver x)
      "Checking if KVM driver is installed"
      false flags.WarnCheckXHyveDriver
      "See the \x27Setting Up the Driver Plug-in\x27 topic for more information" p
  else if vmDriver = "hyperv" then
    preflightCheckSucceedsOrFails
      flags.SkipCheckHyperVDriver
      (checkHypervDriver x)
      "Checking if Hyper-V driver is configured"
      false flags.WarnCheckHyperVDriver
      "Hyper-V virtual switch is not set" p
  else .returned p

/-- Source lines 65-105. -/
def preflightChecksAfterStartingHost (flags : StartFlags) (x : External σ)
    (driver : Driver) (p : Proc σ) : Outcome σ :=
  (preflightCheckSucceedsOrFailsWithDriver
    flags.SkipInstanceIP
    checkInstanceIP driver
    "Checking for IP address"
    false flags.WarnInstanceIP
    "Error determining IP address" p).andThen fun p =>
  (preflightCheckSucceedsOrFailsWithDriver
    flags.SkipCheckNetworkPing
    (checkIPConnectivity flags x) driver
    "Checking if external host is reachable from the Minishift VM"
    true flags.WarnCheckNetworkPing
    "VM is unable to ping external host" p).andThen fun p =>
  (preflightCheckSucceedsOrFailsWithDriver
    flags.SkipCheckNetworkHTTP
    (checkHttpConnectivity flags x) driver
    "Checking HTTP connectivity from the VM"
    true flags.WarnCheckNetworkHTTP
    "VM cannot connect to external URL with HTTP" p).andThen fun p =>
  (preflightCheckSucceedsOrFailsWithDriver
    flags.SkipCheckStorageMount
    checkStorageMounted driver
    "Checking if persisten storage volume is mounted"
    false flags.WarnCheckStorageMount
    "Persistent volume storage is not mounted" p).andThen fun p =>
  preflightCheckSucceedsOrFailsWithDriver
    flags.SkipCheckStorageUsage
    checkStorageUsage driver
    "Checking available disk space"
    false flags.WarnCheckStorageUsage
    "Insufficient disk space on the persistent storage volume" p

/-! ## Sample data for the closed statements -/

/-- A process that has printed nothing, with the given configuration. -/
def sampleProc (bools : String → Bool) (strings : String → String) : Proc Nat :=
  { env := { stdout := "", viperBool := bools, viperString := strings, ext := 0 },
    started := [], invocations := 0 }

/-- A predicate that reports failure and leaves a trace in `ext`. -/
def failingCheck : preflightCheckFunc Nat := fun e =>
  (false, { e with ext := e.ext + 1 })

/-- A predicate that reports success and leaves a trace in `ext`. -/
def passingCheck : preflightCheckFunc Nat := fun e =>
  (true, { e with ext := e.ext + 1 })

/-- Sample key names for the flags; the real ones are not in the sources at
hand.  All eighteen are different. -/
def sampleFlags : StartFlags :=
  { VmDriver := "vm-driver",
    SkipCheckXHyveDriver := "skip-check-xhyve-driver",
    WarnCheckXHyveDriver := "warn-check-xhyve-driver",
    SkipCheckKVMDriver := "skip-check-kvm-driver",
    SkipCheckHyperVDriver := "skip-check-hyperv-driver",
    WarnCheckHyperVDriver := "warn-check-hyperv-driver",
    SkipInstanceIP := "skip-check-instance-ip",
    WarnInstanceIP := "warn-check-instance-ip",
    SkipCheckNetworkPing := "skip-check-network-ping",
    WarnCheckNetworkPing := "warn-check-network-ping",
    SkipCheckNetworkHTTP := "skip-check-network-http",
    WarnCheckNetworkHTTP := "warn-check-network-http",
    SkipCheckStorageMount := "skip-check-storage-mount",
    WarnCheckStorageMount := "warn-check-storage-mount",
    SkipCheckStorageUsage := "skip-check-storage-usage",
    WarnCheckStorageUsage := "warn-check-storage-usage",
    CheckNetworkPingHost := "check-network-ping-host",
    CheckNetworkHttpHost := "check-network-http-host" }

/-- A host without any driver binary, and network helpers that succeed
silently. -/
def sampleExternal : External Nat :=
  { LookPath := fun _ => ("", some "executable file not found in $PATH"),
    Stat := fun _ => ⟨false, false⟩,
    Readlink := fun p => (p, none),
    Getenv := fun _ => "",
    PrintfFormat := fun f => f,
    IsIPReachable := fun _ _ _ e => (true, e),
    IsRetrievable := fun _ _ _ e => (true, e) }

/-- A driver that reports the address `ip` and answers the mount command with
`mount` and every other command with `usage`. -/
def sampleDriver (ip mount usage : String × Option String) : Driver :=
  { GetIP := ip,
    RunSSHCommandFromDriver := fun cmd =>
      if cmd = "if grep -qs /mnt/sda1 /proc/mounts; then echo \x271\x27; else echo \x270\x27; fi"
      then mount else usage }

/-! ## Notions of the specification -/

/-- The messages of the five checks of the "after" phase, in the order of the
specification: IP address, outbound ping, outbound HTTP, storage mount,
storage usage. -/
def afterChecks : List String :=
  ["Checking for IP address",
   "Checking if external host is reachable from the Minishift VM",
   "Checking HTTP connectivity from the VM",
   "Checking if persisten storage volume is mounted",
   "Checking available disk space"]

/-- The failure hints of the five checks of the "after" phase, in the same
order. -/
def afterHints : List String :=
  ["Error determining IP address",
   "VM is unable to ping external host",
   "VM cannot connect to external URL with HTTP",
   "Persistent volume storage is not mounted",
   "Insufficient disk space on the persistent storage volume"]

/-- The four terminal outcomes of running one descriptor (specification,
section 3). -/
inductive Disposition where
  | skipped
  | passed
  | warned
  | failedFatal
  deriving DecidableEq, Repr

/-- A check descriptor (specification, section 3).  The predicate of a
driver-argument check has been given the driver. -/
structure Descriptor (σ : Type) where
  skipKey : String
  warnKey : String
  treatAsWarningByDefault : Bool
  message : String
  failureHint : String
  predicate : preflightCheckFunc σ

/-- The disposition of a descriptor that is started in state `p`, decided by
the skip key, by the result of the predicate on the environment after the
header, and by the warn key and the default severity, in this order of
precedence (specification, section 4.1, steps 2 to 7). -/
def Descriptor.disposition (d : Descriptor σ) (p : Proc σ) : Disposition :=
  if p.env.viperBool d.skipKey then .skipped
  else if (d.predicate (p.env.print ("-- " ++ d.message ++ " ... "))).1 then .passed
  else if p.env.viperBool d.warnKey || d.treatAsWarningByDefault then .warned
  else .failedFatal

/-- The state a descriptor started in state `p` leaves behind: the header, the
effects of the predicate unless skipped, the status token and, for a warning,
the hint line. -/
def Descriptor.stateAfter (d : Descriptor σ) (p : Proc σ) : Proc σ :=
  let h := (p.begin d.message).print ("-- " ++ d.message ++ " ... ")
  match d.disposition p with
  | .skipped => h.println "SKIP"
  | .passed => (h.invoke d.predicate).2.println "OK"
  | .warned => ((h.invoke d.predicate).2.println "FAIL").println ("   " ++ d.failureHint)
  | .failedFatal => (h.invoke d.predicate).2.println "FAIL"

/-- Running one descriptor: a fatal failure ends the process with status 1 and
the indented hint, every other disposition returns. -/
def Descriptor.run (d : Descriptor σ) (p : Proc σ) : Outcome σ :=
  match d.disposition p with
  | .failedFatal => .exited (d.stateAfter p) 1 ("   " ++ d.failureHint)
  | _ => .returned (d.stateAfter p)

/-- Running a phase list: the descriptors strictly in list order, each after
the one before it returned (specification, section 2). -/
def runInOrder : List (Descriptor σ) → Proc σ → Outcome σ
  | [], p => .returned p
  | d :: ds, p => (d.run p).andThen (runInOrder ds)

/-- The state in which the `i`-th descriptor of the list (counted from 0) is
started, if all descriptors before it returned. -/
def stateBefore (ds : List (Descriptor σ)) (p : Proc σ) (i : Nat) : Proc σ :=
  (ds.take i).foldl (fun q d => d.stateAfter q) p

/-- The `i`-th descriptor of the list, started after those before it, fails
fatally: its skip key is false, its predicate returns false, its warn key is
false and it is not a warning by default. -/
def failsFatallyAt (ds : List (Descriptor σ)) (p : Proc σ) (i : Nat) : Prop :=
  ∃ d, ds.get? i = some d ∧ d.disposition (stateBefore ds p i) = .failedFatal

/-- The `i`-th descriptor is the first of the list to fail fatally: the run
of the list ends in a fatal failure of this check. -/
def endsFatallyAt (ds : List (Descriptor σ)) (p : Proc σ) (i : Nat) : Prop :=
  failsFatallyAt ds p i ∧ ∀ j, j < i → ¬ failsFatallyAt ds p j

/-- The five descriptors of the "after" phase, from the arguments of the five
runner calls of source lines 66-104. -/
def afterDescriptors (flags : StartFlags) (x : External σ) (driver : Driver) :
    List (Descriptor σ) :=
  [{ skipKey := flags.SkipInstanceIP, warnKey := flags.WarnInstanceIP,
     treatAsWarningByDefault := false,
     message := "Checking for IP address",
     failureHint := "Error determining IP address",
     predicate := checkInstanceIP driver },
   { skipKey := flags.SkipCheckNetworkPing, warnKey := flags.WarnCheckNetworkPing,
     treatAsWarningByDefault := true,
     message := "Checking if external host is reachable from the Minishift VM",
     failureHint := "VM is unable to ping external host",
     predicate := checkIPConnectivity flags x driver },
   { skipKey := flags.SkipCheckNetworkHTTP, warnKey := flags.WarnCheckNetworkHTTP,
     treatAsWarningByDefault := true,
     message := "Checking HTTP connectivity from the VM",
     failureHint := "VM cannot connect to external URL with HTTP",
     predicate := checkHttpConnectivity flags x driver },
   { skipKey := flags.SkipCheckStorageMount, warnKey := flags.WarnCheckStorageMount,
     treatAsWarningByDefault := false,
     message := "Checking if persisten storage volume is mounted",
     failureHint := "Persistent volume storage is not mounted",
     predicate := checkStorageMounted driver },
   { skipKey := flags.SkipCheckStorageUsage, warnKey := flags.WarnCheckStorageUsage,
     treatAsWarningByDefault := false,
     message := "Checking available disk space",
     failureHint := "Insufficient disk space on the persistent storage volume",
     predicate := checkStorageUsage driver }]

/-- A decimal digit. -/
def isDecimalDigit (c : Char) : Prop := '0' ≤ c ∧ c ≤ '9'

instance : DecidablePred isDecimalDigit := fun c => by
  unfold isDecimalDigit; infer_instance

/-- The number a digit string continues from `n`: each further digit `d`
turns `n` into `10 n + d`. -/
def decimalFrom (n : Nat) (ds : List Char) : Nat :=
  ds.foldl (fun n c => n * 10 + (c.toNat - '0'.toNat)) n

/-- The number a string of decimal digits denotes. -/
def decimalValue (ds : List Char) : Nat := decimalFrom 0 ds

/-- The text `t` is an integer numeral of value `z`: an optional sign followed
by one or more decimal digits. -/
def IntNumeral (t : List Char) (z : Int) : Prop :=
  ∃ ds : List Char, ds ≠ [] ∧ (∀ c ∈ ds, isDecimalDigit c) ∧
    ((t = ds ∧ z = decimalValue ds) ∨ (t = '+' :: ds ∧ z = decimalValue ds) ∨
      (t = '-' :: ds ∧ z = -(decimalValue ds : Int)))

/-- The disk-usage figure `fig` parses as the integer `z`: an integer numeral,
optionally followed by percent signs. -/
def UsageFigure (fig : String) (z : Int) : Prop :=
  ∃ (t : List Char) (k : Nat), fig.data = t ++ List.replicate k '%' ∧ IntNumeral t z

/-- The decimal numeral of an octet: one to three decimal digits of value at
most 255, without a leading zero. -/
def isOctetNumeral (ds : List Char) : Prop :=
  ds ≠ [] ∧ (∀ c ∈ ds, isDecimalDigit c) ∧ decimalValue ds ≤ 255 ∧
    (ds.head? = some '0' → ds = ['0'])

/-- The string is an IPv4 literal: four octet numerals separated by dots. -/
def IsIPv4Literal (s : String) : Prop :=
  ∃ o1 o2 o3 o4 : List Char,
    isOctetNumeral o1 ∧ isOctetNumeral o2 ∧ isOctetNumeral o3 ∧ isOctetNumeral o4 ∧
    s.data = o1 ++ '.' :: (o2 ++ '.' :: (o3 ++ '.' :: o4))

/-! ## Theorems about the runner -/

section Runner

variable (skipKey warnKey message errorMessage : String) (treatAsWarning : Bool)
  (execute : preflightCheckFunc σ) (executeWithDriver : preflightCheckWithDriverFunc σ)
  (driver : Driver) (p : Proc σ)

/-- The header and the `SKIP` line make one text. -/
theorem header_skip (out message : String) :
    out ++ ("-- " ++ message ++ " ... ") ++ "SKIP\n"
      = out ++ ("-- " ++ message ++ " ... SKIP\n") := by
  simp only [String.append_assoc]; rfl

/-- C1: if the skip key resolves to true, both runner shapes return normally
having appended exactly `-- <message> ... SKIP` and a newline to the output;
the predicate is not invoked (the invocation count and everything a predicate
could touch are unchanged, whatever the predicate is), no hint is printed and
the process is not ended, whatever the warn flags are. -/
theorem skip_takes_precedence (hskip : p.env.viperBool skipKey = true) :
    preflightCheckSucceedsOrFails skipKey execute message treatAsWarning warnKey
        errorMessage p
      = .returned
          { env := { p.env with stdout := p.env.stdout ++ ("-- " ++ message ++ " ... SKIP\n") },
            started := p.started ++ [message],
            invocations := p.invocations } ∧
    preflightCheckSucceedsOrFailsWithDriver skipKey executeWithDriver driver message
        treatAsWarning warnKey errorMessage p
      = .returned
          { env := { p.env with stdout := p.env.stdout ++ ("-- " ++ message ++ " ... SKIP\n") },
            started := p.started ++ [message],
            invocations := p.invocations } := by
  constructor <;>
    simp [preflightCheckSucceedsOrFails, preflightCheckSucceedsOrFailsWithDriver,
      Proc.begin, Proc.print, Proc.println, Env.print, hskip, header_skip]

/-- Witness of C1: a skipped check whose predicate would fail, with the warn
key unset. -/
theorem skip_takes_precedence_witness :
    (sampleProc (fun k => k == "skip") (fun _ => "")).env.viperBool "skip" = true ∧
    (preflightCheckSucceedsOrFails "skip" failingCheck "Checking" false "warn" "hint"
        (sampleProc (fun k => k == "skip") (fun _ => ""))).proc.env.stdout
      = "-- Checking ... SKIP\n" ∧
    (preflightCheckSucceedsOrFails "skip" failingCheck "Checking" false "warn" "hint"
        (sampleProc (fun k => k == "skip") (fun _ => ""))).proc.env.ext = 0 := by
  have h := (skip_takes_precedence "skip" "warn" "Checking" "hint" false failingCheck
    (fun _ => failingCheck) ⟨("", none), fun _ => ("", none)⟩
    (sampleProc (fun k => k == "skip") (fun _ => "")) (by decide)).1
  refine ⟨by decide, ?_, ?_⟩
  · rw [h]; rfl
  · rw [h]; rfl

/-- C2: a failing predicate with skip false, warn key false and treatAsWarning
false: both runner shapes print `FAIL` and end the process with exit status 1
and the hint, indented by three spaces, as final message; the runner does not
return, so whatever follows the call does not run. -/
theorem fatal_failure_exits
    (hskip : p.env.viperBool skipKey = false)
    (hwarn : p.env.viperBool warnKey = false)
    (hfail : (execute (p.env.print ("-- " ++ message ++ " ... "))).1 = false)
    (hfailD : (executeWithDriver driver (p.env.print ("-- " ++ message ++ " ... "))).1 = false) :
    (preflightCheckSucceedsOrFails skipKey execute message false warnKey errorMessage p
      = .exited
          { env := (execute (p.env.print ("-- " ++ message ++ " ... "))).2.print "FAIL\n",
            started := p.started ++ [message],
            invocations := p.invocations + 1 }
          1 ("   " ++ errorMessage) ∧
     ∀ next : Proc σ → Outcome σ,
      (preflightCheckSucceedsOrFails skipKey execute message false warnKey errorMessage
          p).andThen next
        = preflightCheckSucceedsOrFails skipKey execute message false warnKey
            errorMessage p) ∧
    (preflightCheckSucceedsOrFailsWithDriver skipKey executeWithDriver driver message false
        warnKey errorMessage p
      = .exited
          { env := (executeWithDriver driver
              (p.env.print ("-- " ++ message ++ " ... "))).2.print "FAIL\n",
            started := p.started ++ [message],
            invocations := p.invocations + 1 }
          1 ("   " ++ errorMessage) ∧
     ∀ next : Proc σ → Outcome σ,
      (preflightCheckSucceedsOrFailsWithDriver skipKey executeWithDriver driver message
          false warnKey errorMessage p).andThen next
        = preflightCheckSucceedsOrFailsWithDriver skipKey executeWithDriver driver message
            false warnKey errorMessage p) := by
  have h1 : preflightCheckSucceedsOrFails skipKey execute message false warnKey errorMessage p
      = .exited
          { env := (execute (p.env.print ("-- " ++ message ++ " ... "))).2.print "FAIL\n",
            started := p.started ++ [message],
            invocations := p.invocations + 1 }
          1 ("   " ++ errorMessage) := by
    have hfail' := hfail
    simp only [Env.print] at hfail'
    simp [preflightCheckSucceedsOrFails, Proc.begin, Proc.print, Proc.println, Proc.invoke,
      Env.print, ExitWithMessage, hskip, hwarn, hfail']
  have h2 : preflightCheckSucceedsOrFailsWithDriver skipKey executeWithDriver driver message
        false warnKey errorMessage p
      = .exited
          { env := (executeWithDriver driver
              (p.env.print ("-- " ++ message ++ " ... "))).2.print "FAIL\n",
            started := p.started ++ [message],
            invocations := p.invocations + 1 }
          1 ("   " ++ errorMessage) := by
    have hfail' := hfailD
    simp only [Env.print] at hfail'
    simp [preflightCheckSucceedsOrFailsWithDriver, Proc.begin, Proc.print, Proc.println,
      Proc.invoke, Env.print, ExitWithMessage, hskip, hwarn, hfail']
  refine ⟨⟨h1, fun next => ?_⟩, ⟨h2, fun next => ?_⟩⟩
  · rw [h1]; rfl
  · rw [h2]; rfl

/-- Witness of C2: a failing check with no key set exits with status 1. -/
theorem fatal_failure_exits_witness :
    (sampleProc (fun _ => false) (fun _ => "")).env.viperBool "skip" = false ∧
    (sampleProc (fun _ => false) (fun _ => "")).env.viperBool "warn" = false ∧
    (failingCheck ((sampleProc (fun _ => false) (fun _ => "")).env.print
      ("-- " ++ "Checking" ++ " ... "))).1 = false ∧
    (preflightCheckSucceedsOrFails "skip" failingCheck "Checking" false "warn" "hint"
        (sampleProc (fun _ => false) (fun _ => ""))).isReturned = false ∧
    (preflightCheckSucceedsOrFails "skip" failingCheck "Checking" false "warn" "hint"
        (sampleProc (fun _ => false) (fun _ => ""))).proc.env.stdout
      = "-- Checking ... FAIL\n" := by
  have h := (fatal_failure_exits "skip" "warn" "Checking" "hint" failingCheck
    (fun _ => failingCheck) ⟨("", none), fun _ => ("", none)⟩
    (sampleProc (fun _ => false) (fun _ => "")) rfl rfl rfl rfl).1.1
  refine ⟨rfl, rfl, rfl, ?_, ?_⟩
  · rw [h]; rfl
  · rw [h]; decide

/-- C4: a passing predicate with skip false: both runner shapes invoke the
predicate exactly once (the environment is the predicate's result on the
environment after the header, the invocation count goes up by one), print
exactly `OK` and a newline after it, print no hint and return normally,
whatever the warn key and treatAsWarning are. -/
theorem passing_check_prints_ok
    (hskip : p.env.viperBool skipKey = false)
    (hpass : (execute (p.env.print ("-- " ++ message ++ " ... "))).1 = true)
    (hpassD : (executeWithDriver driver (p.env.print ("-- " ++ message ++ " ... "))).1 = true) :
    preflightCheckSucceedsOrFails skipKey execute message treatAsWarning warnKey
        errorMessage p
      = .returned
          { env := (execute (p.env.print ("-- " ++ message ++ " ... "))).2.print "OK\n",
            started := p.started ++ [message],
            invocations := p.invocations + 1 } ∧
    preflightCheckSucceedsOrFailsWithDriver skipKey executeWithDriver driver message
        treatAsWarning warnKey errorMessage p
      = .returned
          { env := (executeWithDriver driver
              (p.env.print ("-- " ++ message ++ " ... "))).2.print "OK\n",
            started := p.started ++ [message],
            invocations := p.invocations + 1 } := by
  simp only [Env.print] at hpass hpassD
  constructor
  · simp [preflightCheckSucceedsOrFails, Proc.begin, Proc.print, Proc.println, Proc.invoke,
      Env.print, hskip, hpass]
  · simp [preflightCheckSucceedsOrFailsWithDriver, Proc.begin, Proc.print, Proc.println,
      Proc.invoke, Env.print, hskip, hpassD]

/-- Witness of C4: a passing check, with the warn key set. -/
theorem passing_check_prints_ok_witness :
    (sampleProc (fun k => k == "warn") (fun _ => "")).env.viperBool "skip" = false ∧
    (passingCheck ((sampleProc (fun k => k == "warn") (fun _ => "")).env.print
      ("-- " ++ "Checking" ++ " ... "))).1 = true ∧
    (preflightCheckSucceedsOrFails "skip" passingCheck "Checking" true "warn" "hint"
        (sampleProc (fun k => k == "warn") (fun _ => ""))).proc.env.stdout
      = "-- Checking ... OK\n" ∧
    (preflightCheckSucceedsOrFails "skip" passingCheck "Checking" true "warn" "hint"
        (sampleProc (fun k => k == "warn") (fun _ => ""))).proc.env.ext = 1 := by
  have h := (passing_check_prints_ok "skip" "warn" "Checking" "hint" true passingCheck
    (fun _ => passingCheck) ⟨("", none), fun _ => ("", none)⟩
    (sampleProc (fun k => k == "warn") (fun _ => "")) (by decide) rfl rfl).1
  refine ⟨by decide, rfl, ?_, ?_⟩
  · rw [h]; decide
  · rw [h]; rfl

/-- C3 as stated fails: the predicate fails and the warn key is true, but with
the skip key true as well the runner prints `SKIP`, neither `FAIL` nor the
hint. -/
theorem warning_claim_fails_when_skipped :
    (failingCheck ((sampleProc (fun _ => true) (fun _ => "")).env.print
      ("-- " ++ "Checking" ++ " ... "))).1 = false ∧
    (sampleProc (fun _ => true) (fun _ => "")).env.viperBool "warn" = true ∧
    (preflightCheckSucceedsOrFails "skip" failingCheck "Checking" false "warn" "hint"
        (sampleProc (fun _ => true) (fun _ => ""))).proc.env.stdout
      = "-- Checking ... SKIP\n" ∧
    (preflightCheckSucceedsOrFails "skip" failingCheck "Checking" false "warn" "hint"
        (sampleProc (fun _ => true) (fun _ => ""))).proc.env.stdout
      ≠ "-- Checking ... FAIL\n   hint\n" ∧
    (preflightCheckSucceedsOrFailsWithDriver "skip" (fun _ => failingCheck)
        ⟨("", none), fun _ => ("", none)⟩ "Checking" false "warn" "hint"
        (sampleProc (fun _ => true) (fun _ => ""))).proc.env.stdout
      = "-- Checking ... SKIP\n" := by
  refine ⟨rfl, rfl, ?_, ?_, ?_⟩ <;> decide

/-- C3, amended: a failing predicate with skip false and a warning disposition
(warn key true or treatAsWarning true, either alone suffices): both runner
shapes print `FAIL`, then the hint line indented by three spaces, and return
normally, so that whatever follows the call runs on the resulting state. -/
theorem warned_failure_continues
    (hskip : p.env.viperBool skipKey = false)
    (hwarning : p.env.viperBool warnKey = true ∨ treatAsWarning = true)
    (hfail : (execute (p.env.print ("-- " ++ message ++ " ... "))).1 = false)
    (hfailD : (executeWithDriver driver (p.env.print ("-- " ++ message ++ " ... "))).1 = false) :
    (preflightCheckSucceedsOrFails skipKey execute message treatAsWarning warnKey
        errorMessage p
      = .returned
          { env := ((execute (p.env.print ("-- " ++ message ++ " ... "))).2.print
              "FAIL\n").print ("   " ++ errorMessage ++ "\n"),
            started := p.started ++ [message],
            invocations := p.invocations + 1 } ∧
     ∀ next : Proc σ → Outcome σ,
      (preflightCheckSucceedsOrFails skipKey execute message treatAsWarning warnKey
          errorMessage p).andThen next
        = next
          { env := ((execute (p.env.print ("-- " ++ message ++ " ... "))).2.print
              "FAIL\n").print ("   " ++ errorMessage ++ "\n"),
            started := p.started ++ [message],
            invocations := p.invocations + 1 }) ∧
    (preflightCheckSucceedsOrFailsWithDriver skipKey executeWithDriver driver message
        treatAsWarning warnKey errorMessage p
      = .returned
          { env := ((executeWithDriver driver
              (p.env.print ("-- " ++ message ++ " ... "))).2.print
              "FAIL\n").print ("   " ++ errorMessage ++ "\n"),
            started := p.started ++ [message],
            invocations := p.invocations + 1 } ∧
     ∀ next : Proc σ → Outcome σ,
      (preflightCheckSucceedsOrFailsWithDriver skipKey executeWithDriver driver message
          treatAsWarning warnKey errorMessage p).andThen next
        = next
          { env := ((executeWithDriver driver
              (p.env.print ("-- " ++ message ++ " ... "))).2.print
              "FAIL\n").print ("   " ++ errorMessage ++ "\n"),
            started := p.started ++ [message],
            invocations := p.invocations + 1 }) := by
  have hw : (p.env.viperBool warnKey || treatAsWarning) = true := by
    rcases hwarning with h | h <;> simp [h]
  simp only [Env.print] at hfail hfailD
  have h1 : preflightCheckSucceedsOrFails skipKey execute message treatAsWarning warnKey
        errorMessage p
      = .returned
          { env := ((execute (p.env.print ("-- " ++ message ++ " ... "))).2.print
              "FAIL\n").print ("   " ++ errorMessage ++ "\n"),
            started := p.started ++ [message],
            invocations := p.invocations + 1 } := by
    simp only [preflightCheckSucceedsOrFails, Proc.begin, Proc.print, Proc.println,
      Proc.invoke, Env.print, hskip, hfail, hw]
    simp
  have h2 : preflightCheckSucceedsOrFailsWithDriver skipKey executeWithDriver driver message
        treatAsWarning warnKey errorMessage p
      = .returned
          { env := ((executeWithDriver driver
              (p.env.print ("-- " ++ message ++ " ... "))).2.print
              "FAIL\n").print ("   " ++ errorMessage ++ "\n"),
            started := p.started ++ [message],
            invocations := p.invocations + 1 } := by
    simp only [preflightCheckSucceedsOrFailsWithDriver, Proc.begin, Proc.print, Proc.println,
      Proc.invoke, Env.print, hskip, hfailD, hw]
    simp
  refine ⟨⟨h1, fun next => ?_⟩, ⟨h2, fun next => ?_⟩⟩
  · rw [h1]; rfl
  · rw [h2]; rfl

/-- Witness of the amended C3: treatAsWarning alone, with the warn key false. -/
theorem warned_failure_continues_witness :
    (sampleProc (fun _ => false) (fun _ => "")).env.viperBool "skip" = false ∧
    ((sampleProc (fun _ => false) (fun _ => "")).env.viperBool "warn" = true ∨ true = true) ∧
    (failingCheck ((sampleProc (fun _ => false) (fun _ => "")).env.print
      ("-- " ++ "Checking" ++ " ... "))).1 = false ∧
    (preflightCheckSucceedsOrFails "skip" failingCheck "Checking" true "warn" "hint"
        (sampleProc (fun _ => false) (fun _ => ""))).isReturned = true ∧
    (preflightCheckSucceedsOrFails "skip" failingCheck "Checking" true "warn" "hint"
        (sampleProc (fun _ => false) (fun _ => ""))).proc.env.stdout
      = "-- Checking ... FAIL\n   hint\n" := by
  have h := (warned_failure_continues "skip" "warn" "Checking" "hint" true failingCheck
    (fun _ => failingCheck) ⟨("", none), fun _ => ("", none)⟩
    (sampleProc (fun _ => false) (fun _ => "")) rfl (Or.inr rfl) rfl rfl).1.1
  refine ⟨rfl, Or.inr rfl, rfl, ?_, ?_⟩
  · rw [h]; rfl
  · rw [h]; decide

end Runner

/-! ## The storage-mount check -/

/-- C7 as stated fails: the remote command succeeds with empty output, which
is not the answer `1`, and `checkStorageMounted` returns true. -/
theorem mounted_on_empty_output :
    ((sampleDriver ("", none) ("", none) ("", none)).RunSSHCommandFromDriver
      "if grep -qs /mnt/sda1 /proc/mounts; then echo \x271\x27; else echo \x270\x27; fi")
      = ("", none) ∧
    Trim "" "\n" ≠ "1" ∧
    (checkStorageMounted (sampleDriver ("", none) ("", none) ("", none))
      (sampleProc (fun _ => false) (fun _ => "")).env).1 = true := by
  decide

/-- C7, amended: `checkStorageMounted` runs the mount-table test for
`/mnt/sda1` on the VM and returns true exactly when the command succeeded and
its output, trimmed of newlines, is not the answer `0`; so it returns true for
the answer `1` (also with a trailing newline), false for the answer `0`, false
for every command error, and true for every other output of a successful
command (the empty output among them).  It leaves the environment as it is. -/
theorem checkStorageMounted_iff (driver : Driver) (e : Env σ) :
    ((checkStorageMounted driver e).1 = true ↔
      (driver.RunSSHCommandFromDriver
        "if grep -qs /mnt/sda1 /proc/mounts; then echo \x271\x27; else echo \x270\x27; fi").2
          = none ∧
      Trim (driver.RunSSHCommandFromDriver
        "if grep -qs /mnt/sda1 /proc/mounts; then echo \x271\x27; else echo \x270\x27; fi").1
          "\n" ≠ "0") ∧
    (checkStorageMounted driver e).2 = e ∧
    Trim "1" "\n" ≠ "0" ∧ Trim "1\n" "\n" ≠ "0" ∧ Trim "0\n" "\n" = "0" ∧ Trim "0" "\n" = "0" ∧
    Trim "" "\n" ≠ "0" := by
  have hcmd : "if grep -qs " ++ StorageDisk ++
      " /proc/mounts; then echo \x271\x27; else echo \x270\x27; fi"
      = "if grep -qs /mnt/sda1 /proc/mounts; then echo \x271\x27; else echo \x270\x27; fi" := by
    decide
  refine ⟨?_, rfl, by decide, by decide, by decide, by decide, by decide⟩
  simp only [checkStorageMounted, isMounted, hcmd]
  generalize driver.RunSSHCommandFromDriver
    "if grep -qs /mnt/sda1 /proc/mounts; then echo \x271\x27; else echo \x270\x27; fi" = r
  obtain ⟨out, err⟩ := r
  cases err with
  | none => by_cases h0 : Trim out "\n" = "0" <;> simp [h0]
  | some err => simp

/-! ## The "before" phase -/

/-- C9 fails on the code: with driver type `kvm`, a failing KVM predicate and
skip false, two configurations that differ only in the value of the xhyve
check's warn key end differently: with the key false the process exits with
status 1, with the key true the failure is a warning and the phase returns. -/
theorem kvm_check_reads_xhyve_warn_key :
    (∀ k : String, k ≠ sampleFlags.WarnCheckXHyveDriver →
      (fun _ : String => false) k = (fun k : String => k == "warn-check-xhyve-driver") k) ∧
    (checkKvmDriver sampleExternal
      ((sampleProc (fun _ => false) (fun _ => "kvm")).env.print
        "-- Checking if KVM driver is installed ... ")).1 = false ∧
    (preflightChecksBeforeStartingHost sampleFlags sampleExternal
      (sampleProc (fun _ => false) (fun _ => "kvm"))).isReturned = false ∧
    (preflightChecksBeforeStartingHost sampleFlags sampleExternal
      (sampleProc (fun _ => false) (fun _ => "kvm"))).proc.env.stdout
      = "-- Checking if KVM driver is installed ... FAIL\n" ∧
    (preflightChecksBeforeStartingHost sampleFlags sampleExternal
      (sampleProc (fun k => k == "warn-check-xhyve-driver") (fun _ => "kvm"))).isReturned
      = true ∧
    (preflightChecksBeforeStartingHost sampleFlags sampleExternal
      (sampleProc (fun k => k == "warn-check-xhyve-driver") (fun _ => "kvm"))).proc.env.stdout
      = "-- Checking if KVM driver is installed ... FAIL\n" ++
        "   See the \x27Setting Up the Driver Plug-in\x27 topic for more information\n" := by
  refine ⟨?_, rfl, ?_, ?_, ?_, ?_⟩
  · intro k hk
    have : k ≠ "warn-check-xhyve-driver" := hk
    simp [this]
  all_goals decide

/-! ## The "after" phase -/

/-- The driver-argument runner does to a state what running the descriptor
made of its arguments does. -/
theorem runner_run (skipKey warnKey message errorMessage : String)
    (treatAsWarning : Bool) (execute : preflightCheckWithDriverFunc σ) (driver : Driver)
    (p : Proc σ) :
    preflightCheckSucceedsOrFailsWithDriver skipKey execute driver message
        treatAsWarning warnKey errorMessage p
      = Descriptor.run
          { skipKey := skipKey, warnKey := warnKey,
            treatAsWarningByDefault := treatAsWarning, message := message,
            failureHint := errorMessage, predicate := execute driver } p := by
  unfold preflightCheckSucceedsOrFailsWithDriver Descriptor.run Descriptor.stateAfter
    Descriptor.disposition
  simp only [Proc.begin, Proc.print, Proc.println, Proc.invoke, ExitWithMessage, Env.print]
  by_cases hskip : p.env.viperBool skipKey = true
  · simp [hskip]
  · by_cases hres : (execute driver
        { stdout := p.env.stdout ++ ("-- " ++ message ++ " ... "),
          viperBool := p.env.viperBool, viperString := p.env.viperString,
          ext := p.env.ext }).1 = true
    · simp [hskip, hres]
    · by_cases hwarn : (p.env.viperBool warnKey || treatAsWarning) = true
      · simp [hskip, hres, hwarn]
      · simp [hskip, hres, hwarn]

/-- Returning after an outcome changes nothing. -/
theorem andThen_returned (o : Outcome σ) : o.andThen Outcome.returned = o := by
  cases o <;> rfl

/-- The "after" phase is the run of its five descriptors in list order. -/
theorem after_phase_run (flags : StartFlags) (x : External σ) (driver : Driver)
    (p : Proc σ) :
    preflightChecksAfterStartingHost flags x driver p
      = runInOrder (afterDescriptors flags x driver) p := by
  unfold preflightChecksAfterStartingHost
  simp only [runner_run]
  have hnil : (runInOrder ([] : List (Descriptor σ))) = Outcome.returned := by
    funext q; rfl
  simp only [afterDescriptors, runInOrder, hnil, andThen_returned]

/-- Every descriptor adds its message to the checks started, whatever its
disposition. -/
theorem stateAfter_started (d : Descriptor σ) (p : Proc σ) :
    (d.stateAfter p).started = p.started ++ [d.message] := by
  unfold Descriptor.stateAfter
  cases d.disposition p <;> rfl

/-- The state before the next descriptor of a longer list. -/
theorem stateBefore_cons (d : Descriptor σ) (ds : List (Descriptor σ)) (p : Proc σ)
    (i : Nat) : stateBefore (d :: ds) p (i + 1) = stateBefore ds (d.stateAfter p) i := by
  simp [stateBefore]

/-- Failing fatally at a later place of a longer list. -/
theorem failsFatallyAt_cons (d : Descriptor σ) (ds : List (Descriptor σ)) (p : Proc σ)
    (i : Nat) :
    failsFatallyAt (d :: ds) p (i + 1) ↔ failsFatallyAt ds (d.stateAfter p) i := by
  simp [failsFatallyAt, stateBefore_cons]

/-- Failing fatally at the head of a list. -/
theorem failsFatallyAt_zero (d : Descriptor σ) (ds : List (Descriptor σ)) (p : Proc σ) :
    failsFatallyAt (d :: ds) p 0 ↔ d.disposition p = .failedFatal := by
  simp [failsFatallyAt, stateBefore]

/-- The checks started before the `i`-th descriptor are the first `i`
messages of the list. -/
theorem stateBefore_started (ds : List (Descriptor σ)) (p : Proc σ) (i : Nat) :
    (stateBefore ds p i).started = p.started ++ (ds.map Descriptor.message).take i := by
  induction ds generalizing p i with
  | nil => simp [stateBefore]
  | cons d ds ih =>
    cases i with
    | zero => simp [stateBefore]
    | succ i =>
      rw [stateBefore_cons, ih, stateAfter_started]
      simp

/-- A list none of whose descriptors fails fatally runs to its end and
returns. -/
theorem runInOrder_of_no_fatal (ds : List (Descriptor σ)) (p : Proc σ)
    (h : ∀ i, ¬ failsFatallyAt ds p i) :
    runInOrder ds p = .returned (stateBefore ds p ds.length) := by
  induction ds generalizing p with
  | nil => rfl
  | cons d ds ih =>
    have h0 : d.disposition p ≠ .failedFatal :=
      fun hd => h 0 ((failsFatallyAt_zero d ds p).2 hd)
    have hrun : d.run p = .returned (d.stateAfter p) := by
      unfold Descriptor.run
      split
      · rename_i hd; exact absurd hd h0
      · rfl
    rw [runInOrder, hrun]
    simp only [Outcome.andThen, List.length_cons, stateBefore_cons]
    exact ih _ (fun i hi => h (i + 1) ((failsFatallyAt_cons d ds p i).2 hi))

/-- A list whose first fatal failure is at place `i` runs up to this check and
ends the process with its hint. -/
theorem runInOrder_of_first_fatal (ds : List (Descriptor σ)) (p : Proc σ) (i : Nat)
    (h : endsFatallyAt ds p i) :
    ∃ d, ds.get? i = some d ∧
      runInOrder ds p = .exited (stateBefore ds p (i + 1)) 1 ("   " ++ d.failureHint) := by
  induction ds generalizing p i with
  | nil =>
    obtain ⟨⟨d, hd, -⟩, -⟩ := h
    simp at hd
  | cons d ds ih =>
    cases i with
    | zero =>
      have hd : d.disposition p = .failedFatal := (failsFatallyAt_zero d ds p).1 h.1
      refine ⟨d, rfl, ?_⟩
      have hrun : d.run p = .exited (d.stateAfter p) 1 ("   " ++ d.failureHint) := by
        unfold Descriptor.run
        rw [hd]
      rw [runInOrder, hrun]
      simp [Outcome.andThen, stateBefore]
    | succ i =>
      have h0 : d.disposition p ≠ .failedFatal :=
        fun hd => h.2 0 (Nat.succ_pos i) ((failsFatallyAt_zero d ds p).2 hd)
      have hrun : d.run p = .returned (d.stateAfter p) := by
        unfold Descriptor.run
        split
        · rename_i hd; exact absurd hd h0
        · rfl
      have htail : endsFatallyAt ds (d.stateAfter p) i :=
        ⟨(failsFatallyAt_cons d ds p i).1 h.1,
          fun j hj hf => h.2 (j + 1) (Nat.succ_lt_succ hj) ((failsFatallyAt_cons d ds p j).2 hf)⟩
      obtain ⟨d', hd', hr⟩ := ih (d.stateAfter p) i htail
      refine ⟨d', by simpa using hd', ?_⟩
      rw [runInOrder, hrun]
      simp only [Outcome.andThen, stateBefore_cons]
      exact hr

/-- Among descriptors that fail fatally there is a first one. -/
theorem exists_first_fatal (ds : List (Descriptor σ)) (p : Proc σ)
    (h : ∃ i, failsFatallyAt ds p i) : ∃ i, endsFatallyAt ds p i := by
  classical
  exact ⟨Nat.find h, Nat.find_spec h, fun j hj => Nat.find_min h hj⟩

/-- A descriptor that is a warning by default never fails fatally. -/
theorem disposition_of_default_warning (d : Descriptor σ) (p : Proc σ)
    (hd : d.treatAsWarningByDefault = true) : d.disposition p ≠ .failedFatal := by
  unfold Descriptor.disposition
  rw [hd]
  split
  · simp
  · split
    · simp
    · simp

/-- C5 as stated fails: all five checks are started, the full list, although
a check ends in a fatal failure: the last one, with disk usage at 99%. -/
theorem full_list_with_fatal_failure :
    (preflightChecksAfterStartingHost sampleFlags sampleExternal
      (sampleDriver ("10.0.2.15", none) ("1\n", none) ("99%\n", none))
      (sampleProc (fun _ => false) (fun _ => ""))).proc.started = afterChecks ∧
    (preflightChecksAfterStartingHost sampleFlags sampleExternal
      (sampleDriver ("10.0.2.15", none) ("1\n", none) ("99%\n", none))
      (sampleProc (fun _ => false) (fun _ => ""))).exit
      = some (1, "   Insufficient disk space on the persistent storage volume") := by
  constructor <;> decide

/-- C5, amended: for every configuration (the driver type included), driver
and helper behaviour, the "after" phase is the run of its five descriptors
(IP address, outbound ping, outbound HTTP, storage mount, storage usage) in
this order, where the disposition of each is decided by its skip key, the
result of its predicate and its warn flags.  The checks started are a prefix
of the fixed list, each at most once.  If no descriptor fails fatally (each is
skipped, passes or warns) all five are started and the phase returns; if the
first fatal failure is at place `i`, the checks started are the first `i + 1`
and the process ends with status 1 and that check's hint.  The ping and HTTP
checks never fail fatally.  The sequence is the full list exactly when none of
the first four checks ends in a fatal failure. -/
theorem after_phase_order (flags : StartFlags) (x : External σ) (driver : Driver)
    (p : Proc σ) :
    preflightChecksAfterStartingHost flags x driver p
      = runInOrder (afterDescriptors flags x driver) p ∧
    (afterDescriptors flags x driver).map Descriptor.message = afterChecks ∧
    (afterDescriptors flags x driver).map Descriptor.failureHint = afterHints ∧
    (∃ s : List String,
      (preflightChecksAfterStartingHost flags x driver p).proc.started = p.started ++ s ∧
      s <+: afterChecks ∧ s.Nodup ∧
      (s = afterChecks ↔
        ∀ i, i < 4 → ¬ endsFatallyAt (afterDescriptors flags x driver) p i)) ∧
    ((∀ i, ¬ failsFatallyAt (afterDescriptors flags x driver) p i) →
      preflightChecksAfterStartingHost flags x driver p
        = .returned (stateBefore (afterDescriptors flags x driver) p 5) ∧
      (preflightChecksAfterStartingHost flags x driver p).proc.started
        = p.started ++ afterChecks) ∧
    (∀ i, endsFatallyAt (afterDescriptors flags x driver) p i →
      i < 5 ∧
      preflightChecksAfterStartingHost flags x driver p
        = .exited (stateBefore (afterDescriptors flags x driver) p (i + 1)) 1
            ("   " ++ afterHints.getD i "") ∧
      (preflightChecksAfterStartingHost flags x driver p).proc.started
        = p.started ++ afterChecks.take (i + 1)) ∧
    ((preflightChecksAfterStartingHost flags x driver p).isReturned = true ↔
      ∀ i, ¬ failsFatallyAt (afterDescriptors flags x driver) p i) ∧
    ¬ failsFatallyAt (afterDescriptors flags x driver) p 1 ∧
    ¬ failsFatallyAt (afterDescriptors flags x driver) p 2 := by
  have hrun := after_phase_run flags x driver p
  have hmsg : (afterDescriptors flags x driver).map Descriptor.message = afterChecks := rfl
  have hhint : (afterDescriptors flags x driver).map Descriptor.failureHint = afterHints := rfl
  have hlen : (afterDescriptors flags x driver).length = 5 := rfl
  -- no fatal failure: the phase returns after all five
  have hnone : (∀ i, ¬ failsFatallyAt (afterDescriptors flags x driver) p i) →
      preflightChecksAfterStartingHost flags x driver p
        = .returned (stateBefore (afterDescriptors flags x driver) p 5) ∧
      (preflightChecksAfterStartingHost flags x driver p).proc.started
        = p.started ++ afterChecks := by
    intro h
    have e := runInOrder_of_no_fatal _ p h
    rw [hlen] at e
    refine ⟨hrun.trans e, ?_⟩
    rw [hrun, e]
    show (stateBefore (afterDescriptors flags x driver) p 5).started = _
    rw [stateBefore_started, hmsg]
    rfl
  -- first fatal failure at place i: the process ends there
  have hfirst : ∀ i, endsFatallyAt (afterDescriptors flags x driver) p i →
      i < 5 ∧
      preflightChecksAfterStartingHost flags x driver p
        = .exited (stateBefore (afterDescriptors flags x driver) p (i + 1)) 1
            ("   " ++ afterHints.getD i "") ∧
      (preflightChecksAfterStartingHost flags x driver p).proc.started
        = p.started ++ afterChecks.take (i + 1) := by
    intro i h
    obtain ⟨d, hd, e⟩ := runInOrder_of_first_fatal _ p i h
    have hi : i < 5 := by
      rw [← hlen]
      exact (List.get?_eq_some.1 hd).1
    have hh : d.failureHint = afterHints.getD i "" := by
      have h1 : ((afterDescriptors flags x driver).map Descriptor.failureHint).get? i
          = some d.failureHint := by
        rw [List.get?_eq_getElem?, List.getElem?_map, ← List.get?_eq_getElem?, hd]; rfl
      rw [hhint] at h1
      rw [List.getD_eq_getElem?_getD, ← List.get?_eq_getElem?, h1]
      rfl
    rw [hh] at e
    refine ⟨hi, hrun.trans e, ?_⟩
    rw [hrun, e]
    show (stateBefore (afterDescriptors flags x driver) p (i + 1)).started = _
    rw [stateBefore_started, hmsg]
  have h1 : ¬ failsFatallyAt (afterDescriptors flags x driver) p 1 := by
    rintro ⟨d, hd, hf⟩
    have : d.treatAsWarningByDefault = true := by
      simp [afterDescriptors] at hd
      rw [← hd]
    exact disposition_of_default_warning d _ this hf
  have h2 : ¬ failsFatallyAt (afterDescriptors flags x driver) p 2 := by
    rintro ⟨d, hd, hf⟩
    have : d.treatAsWarningByDefault = true := by
      simp [afterDescriptors] at hd
      rw [← hd]
    exact disposition_of_default_warning d _ this hf
  refine ⟨hrun, hmsg, hhint, ?_, hnone, hfirst, ?_, h1, h2⟩
  · by_cases hex : ∃ i, failsFatallyAt (afterDescriptors flags x driver) p i
    · obtain ⟨i, hi⟩ := exists_first_fatal _ p hex
      obtain ⟨hlt, -, hs⟩ := hfirst i hi
      refine ⟨afterChecks.take (i + 1), hs, List.take_prefix _ _,
        List.Nodup.sublist (List.take_sublist _ _) (by decide), ?_, ?_⟩
      · intro hfull j hj hends
        have hij : i = j := by
          rcases Nat.lt_trichotomy i j with hlt' | heq | hgt
          · exact absurd hi.1 (hends.2 i hlt')
          · exact heq
          · exact absurd hends.1 (hi.2 j hgt)
        subst hij
        have hlen' := congrArg List.length hfull
        simp [afterChecks] at hlen'
        omega
      · intro hall
        have hi4 : i = 4 := by
          by_contra hne
          exact hall i (by omega) hi
        subst hi4
        rfl
    · have hno : ∀ i, ¬ failsFatallyAt (afterDescriptors flags x driver) p i :=
        fun i hi => hex ⟨i, hi⟩
      refine ⟨afterChecks, (hnone hno).2, List.prefix_refl _, by decide,
        fun _ i _ hends => hno i hends.1, fun _ => rfl⟩
  · constructor
    · intro hret i hi
      obtain ⟨j, hj⟩ := exists_first_fatal _ p ⟨i, hi⟩
      rw [(hfirst j hj).2.1] at hret
      cases hret
    · intro hno
      rw [(hnone hno).1]
      rfl

/-- Witness of the amended C5: with every key false, a reachable network and
a mounted disk, usage `45%` lets no descriptor fail fatally and the phase
returns after all five checks; usage `99%` makes the fifth descriptor the first
to fail fatally and the process ends after all five checks were started. -/
theorem after_phase_order_witness :
    (∀ i, ¬ failsFatallyAt
      (afterDescriptors sampleFlags sampleExternal
        (sampleDriver ("10.0.2.15", none) ("1\n", none) ("45%\n", none)))
      (sampleProc (fun _ => false) (fun _ => "")) i) ∧
    (preflightChecksAfterStartingHost sampleFlags sampleExternal
      (sampleDriver ("10.0.2.15", none) ("1\n", none) ("45%\n", none))
      (sampleProc (fun _ => false) (fun _ => ""))).proc.started = [] ++ afterChecks ∧
    endsFatallyAt
      (afterDescriptors sampleFlags sampleExternal
        (sampleDriver ("10.0.2.15", none) ("1\n", none) ("99%\n", none)))
      (sampleProc (fun _ => false) (fun _ => "")) 4 ∧
    (preflightChecksAfterStartingHost sampleFlags sampleExternal
      (sampleDriver ("10.0.2.15", none) ("1\n", none) ("99%\n", none))
      (sampleProc (fun _ => false) (fun _ => ""))).proc.started
      = [] ++ afterChecks.take (4 + 1) := by
  have hno45 : ∀ i, i < 4 →
      ¬ failsFatallyAt
        (afterDescriptors sampleFlags sampleExternal
          (sampleDriver ("10.0.2.15", none) ("1\n", none) ("45%\n", none)))
        (sampleProc (fun _ => false) (fun _ => "")) i := by
    rintro i hi ⟨d, hd, hf⟩
    interval_cases i
    all_goals
      simp only [afterDescriptors, List.get?, Option.some.injEq] at hd
      subst hd
      revert hf
      decide
  have hno99 : ∀ i, i < 4 →
      ¬ failsFatallyAt
        (afterDescriptors sampleFlags sampleExternal
          (sampleDriver ("10.0.2.15", none) ("1\n", none) ("99%\n", none)))
        (sampleProc (fun _ => false) (fun _ => "")) i := by
    rintro i hi ⟨d, hd, hf⟩
    interval_cases i
    all_goals
      simp only [afterDescriptors, List.get?, Option.some.injEq] at hd
      subst hd
      revert hf
      decide
  have h45 : ∀ i, ¬ failsFatallyAt
      (afterDescriptors sampleFlags sampleExternal
        (sampleDriver ("10.0.2.15", none) ("1\n", none) ("45%\n", none)))
      (sampleProc (fun _ => false) (fun _ => "")) i := by
    intro i
    by_cases hi : i < 4
    · exact hno45 i hi
    · rintro ⟨d, hd, hf⟩
      have hlt := (List.get?_eq_some.1 hd).1
      have hi4 : i = 4 := by
        have : (afterDescriptors sampleFlags sampleExternal
          (sampleDriver ("10.0.2.15", none) ("1\n", none) ("45%\n", none))).length = 5 := rfl
        omega
      subst hi4
      simp only [afterDescriptors, List.get?, Option.some.injEq] at hd
      subst hd
      revert hf
      decide
  have h99 : endsFatallyAt
      (afterDescriptors sampleFlags sampleExternal
        (sampleDriver ("10.0.2.15", none) ("1\n", none) ("99%\n", none)))
      (sampleProc (fun _ => false) (fun _ => "")) 4 :=
    ⟨⟨_, rfl, by decide⟩, fun j hj => hno99 j hj⟩
  exact ⟨h45,
    ((after_phase_order sampleFlags sampleExternal
      (sampleDriver ("10.0.2.15", none) ("1\n", none) ("45%\n", none))
      (sampleProc (fun _ => false) (fun _ => ""))).2.2.2.2.1 h45).2,
    h99,
    ((after_phase_order sampleFlags sampleExternal
      (sampleDriver ("10.0.2.15", none) ("1\n", none) ("99%\n", none))
      (sampleProc (fun _ => false) (fun _ => ""))).2.2.2.2.2.1 4 h99).2.2⟩

/-! ## Number parsing -/

/-- The value of a decimal digit is below ten. -/
theorem digit_lt_ten {d : Char} (h : isDecimalDigit d) : d.toNat - '0'.toNat < 10 := by
  obtain ⟨_, h2⟩ := h
  have h2' : d.toNat ≤ 57 := h2
  have : '0'.toNat = 48 := rfl
  omega

/-- The value `ParseUint` gives a decimal digit. -/
theorem digitValue_of_digit {d : Char} (h : isDecimalDigit d) :
    digitValue d = some (d.toNat - '0'.toNat) := by
  unfold digitValue
  exact if_pos h

/-- Further digits do not make the number smaller. -/
theorem le_decimalFrom (ds : List Char) (n : Nat) : n ≤ decimalFrom n ds := by
  induction ds generalizing n with
  | nil => exact Nat.le_refl _
  | cons d ds ih =>
    have := ih (n * 10 + (d.toNat - '0'.toNat))
    simp only [decimalFrom, List.foldl_cons] at this ⊢
    omega

/-- On decimal digits the loop of `ParseUint` computes the number, or reports
a range error if the number exceeds 255. -/
theorem parseUintLoop_digits (ds : List Char) (n : Nat) (hn : n ≤ 255)
    (hds : ∀ c ∈ ds, isDecimalDigit c) :
    parseUintLoop 10 (maxUint64 / 10 + 1) (2 ^ 8 - 1) ds n
      = if decimalFrom n ds ≤ 255 then (decimalFrom n ds, none)
        else (maxUint64, some .range) := by
  induction ds generalizing n with
  | nil => simp [parseUintLoop, decimalFrom, hn]
  | cons d ds ih =>
    have hd := hds d (List.mem_cons_self _ _)
    have hv := digit_lt_ten hd
    have hcut : ¬ n ≥ maxUint64 / 10 + 1 := by
      simp only [maxUint64]; omega
    have hmod : (n * 10 + (d.toNat - '0'.toNat)) % 2 ^ 64 = n * 10 + (d.toNat - '0'.toNat) := by
      apply Nat.mod_eq_of_lt; omega
    simp only [parseUintLoop, digitValue_of_digit hd]
    rw [if_neg (by omega), if_neg hcut]
    simp only [hmod]
    have hstep : decimalFrom n (d :: ds) = decimalFrom (n * 10 + (d.toNat - '0'.toNat)) ds := rfl
    by_cases hbig : n * 10 + (d.toNat - '0'.toNat) > 2 ^ 8 - 1
    · have hle := le_decimalFrom ds (n * 10 + (d.toNat - '0'.toNat))
      rw [if_pos (Or.inr hbig), hstep, if_neg (by omega)]
    · rw [if_neg (by omega), ih _ (by omega) (fun c hc => hds c (List.mem_cons_of_mem _ hc)),
        hstep]

/-- The loop of `ParseUint` succeeds on decimal digits only. -/
theorem parseUintLoop_ok (s : List Char) (n : Nat)
    (h : (parseUintLoop 10 (maxUint64 / 10 + 1) (2 ^ 8 - 1) s n).2 = none) :
    ∀ c ∈ s, isDecimalDigit c := by
  induction s generalizing n with
  | nil => intro c hc; cases hc
  | cons d s ih =>
    have hdig : isDecimalDigit d := by
      by_contra hnd
      unfold isDecimalDigit at hnd
      simp only [parseUintLoop, digitValue, if_neg hnd] at h
      by_cases h1 : 'a' ≤ d ∧ d ≤ 'z'
      · simp [h1] at h
      · by_cases h2 : 'A' ≤ d ∧ d ≤ 'Z'
        · simp [h1, h2] at h
        · simp [h1, h2] at h
    intro c hc
    rcases List.mem_cons.1 hc with rfl | hc
    · exact hdig
    · simp only [parseUintLoop, digitValue_of_digit hdig] at h
      have hv := digit_lt_ten hdig
      rw [if_neg (by omega)] at h
      split at h
      · cases h
      · split at h
        · cases h
        · exact ih _ h c hc

/-- A range error of the loop of `ParseUint` comes with the largest value. -/
theorem parseUintLoop_range (s : List Char) (n : Nat)
    (h : (parseUintLoop 10 (maxUint64 / 10 + 1) (2 ^ 8 - 1) s n).2 = some .range) :
    (parseUintLoop 10 (maxUint64 / 10 + 1) (2 ^ 8 - 1) s n).1 = maxUint64 := by
  induction s generalizing n with
  | nil => simp [parseUintLoop] at h
  | cons d s ih =>
    simp only [parseUintLoop] at h ⊢
    split at h
    · simp at h
    · split at h
      · simp at h
      · rename_i v hv hbase
        rw [if_neg hbase]
        split at h
        · rename_i hc; rw [if_pos hc]
        · rename_i hc; rw [if_neg hc]
          split at h
          · rename_i ho; rw [if_pos ho]
          · rename_i ho; rw [if_neg ho]; exact ih _ h

/-- `ParseUint` on a non-empty string of decimal digits. -/
theorem ParseUint_digits (ds : List Char) (hne : ds ≠ [])
    (hds : ∀ c ∈ ds, isDecimalDigit c) :
    ParseUint ds 10 8
      = if decimalValue ds ≤ 255 then (decimalValue ds, none)
        else (maxUint64, some .range) := by
  have hlen : ¬ ds.length < 1 := by
    cases ds with
    | nil => exact absurd rfl hne
    | cons _ _ => simp
  unfold ParseUint
  rw [if_neg hlen]
  exact parseUintLoop_digits ds 0 (by omega) hds

/-- The plus sign is not a digit. -/
theorem plus_not_digit : ¬ isDecimalDigit '+' := by
  unfold isDecimalDigit; decide

/-- The minus sign is not a digit. -/
theorem minus_not_digit : ¬ isDecimalDigit '-' := by
  unfold isDecimalDigit; decide

/-- The percent sign is not a digit. -/
theorem percent_not_digit : ¬ isDecimalDigit '%' := by
  unfold isDecimalDigit; decide

/-- The last part of `ParseInt`, after `ParseUint` succeeded or reported a
range error. -/
theorem ParseInt_cons (c : Char) (cs : List Char) :
    ParseInt ⟨c :: cs⟩ 10 8
      = match ParseUint (if c = '+' ∨ c = '-' then cs else c :: cs) 10 8 with
        | (_, some .invalid) => (0, some .invalid)
        | (un, _) =>
          if !(decide (c = '-')) ∧ un ≥ 2 ^ (8 - 1) then (((2 ^ (8 - 1) : Nat) : Int) - 1, some .range)
          else if (decide (c = '-')) ∧ un > 2 ^ (8 - 1) then (-((2 ^ (8 - 1) : Nat) : Int), some .range)
          else (if (decide (c = '-')) then -(un : Int) else (un : Int), none) := by
  rfl

/-- An integer numeral within the range of `int8` parses to its value. -/
theorem ParseInt_numeral_inRange (t : List Char) (z : Int) (h : IntNumeral t z)
    (hlo : -128 ≤ z) (hhi : z ≤ 127) : ParseInt ⟨t⟩ 10 8 = (z, none) := by
  obtain ⟨ds, hne, hds, h | h | h⟩ := h
  · obtain ⟨rfl, rfl⟩ := h
    obtain ⟨c, cs, rfl⟩ := List.exists_cons_of_ne_nil hne
    have hc := hds c (List.mem_cons_self _ _)
    have h1 : c ≠ '+' := fun hh => plus_not_digit (hh ▸ hc)
    have h2 : c ≠ '-' := fun hh => minus_not_digit (hh ▸ hc)
    rw [ParseInt_cons, if_neg (by simp [h1, h2]), ParseUint_digits _ hne hds]
    have hv : decimalValue (c :: cs) ≤ 127 := by omega
    rw [if_pos (by omega)]
    simp [h2]
    omega
  · obtain ⟨rfl, rfl⟩ := h
    rw [ParseInt_cons, if_pos (by simp), ParseUint_digits _ hne hds]
    have hv : decimalValue ds ≤ 127 := by omega
    rw [if_pos (by omega)]
    simp
    omega
  · obtain ⟨rfl, rfl⟩ := h
    rw [ParseInt_cons, if_pos (by simp), ParseUint_digits _ hne hds]
    have hv : decimalValue ds ≤ 128 := by omega
    rw [if_pos (by omega)]
    simp
    omega

/-- An integer numeral outside the range of `int8` is an error. -/
theorem ParseInt_numeral_outOfRange (t : List Char) (z : Int) (h : IntNumeral t z)
    (hout : z < -128 ∨ 127 < z) : (ParseInt ⟨t⟩ 10 8).2 = some .range := by
  obtain ⟨ds, hne, hds, h | h | h⟩ := h
  · obtain ⟨rfl, rfl⟩ := h
    obtain ⟨c, cs, rfl⟩ := List.exists_cons_of_ne_nil hne
    have hc := hds c (List.mem_cons_self _ _)
    have h1 : c ≠ '+' := fun hh => plus_not_digit (hh ▸ hc)
    have h2 : c ≠ '-' := fun hh => minus_not_digit (hh ▸ hc)
    rw [ParseInt_cons, if_neg (by simp [h1, h2]), ParseUint_digits _ hne hds]
    have hv : 127 < decimalValue (c :: cs) := by omega
    by_cases h255 : decimalValue (c :: cs) ≤ 255
    · rw [if_pos h255]; simp [h2]; rw [if_pos (by omega)]
    · rw [if_neg h255]; simp [h2, maxUint64]
  · obtain ⟨rfl, rfl⟩ := h
    rw [ParseInt_cons, if_pos (by simp), ParseUint_digits _ hne hds]
    have hv : 127 < decimalValue ds := by omega
    by_cases h255 : decimalValue ds ≤ 255
    · rw [if_pos h255]; simp; rw [if_pos (by omega)]
    · rw [if_neg h255]; simp [maxUint64]
  · obtain ⟨rfl, rfl⟩ := h
    rw [ParseInt_cons, if_pos (by simp), ParseUint_digits _ hne hds]
    have hv : 128 < decimalValue ds := by omega
    by_cases h255 : decimalValue ds ≤ 255
    · rw [if_pos h255]; simp; rw [if_pos (by omega)]
    · rw [if_neg h255]; simp [maxUint64]

/-- What `ParseUint` accepts is a non-empty string of decimal digits, and the
result is its value. -/
theorem ParseUint_ok (body : List Char) (h : (ParseUint body 10 8).2 = none) :
    body ≠ [] ∧ (∀ c ∈ body, isDecimalDigit c) ∧
      ParseUint body 10 8 = (decimalValue body, none) := by
  have hne : body ≠ [] := by
    rintro rfl
    simp [ParseUint] at h
  have hlen : ¬ body.length < 1 := by
    cases body with
    | nil => exact absurd rfl hne
    | cons _ _ => simp
  have hloop : (parseUintLoop 10 (maxUint64 / 10 + 1) (2 ^ 8 - 1) body 0).2 = none := by
    unfold ParseUint at h
    rw [if_neg hlen] at h
    exact h
  have hds := parseUintLoop_ok body 0 hloop
  refine ⟨hne, hds, ?_⟩
  have hd := ParseUint_digits body hne hds
  by_cases h255 : decimalValue body ≤ 255
  · rw [hd, if_pos h255]
  · rw [hd, if_neg h255] at h
    cases h

/-- A range error of `ParseUint` comes with the largest value. -/
theorem ParseUint_range (body : List Char) (h : (ParseUint body 10 8).2 = some .range) :
    (ParseUint body 10 8).1 = maxUint64 := by
  unfold ParseUint at h ⊢
  by_cases hlen : body.length < 1
  · rw [if_pos hlen] at h; cases h
  · rw [if_neg hlen] at h ⊢
    exact parseUintLoop_range body 0 h

/-- What `ParseInt` accepts is an integer numeral, and the result is its value. -/
theorem ParseInt_ok (s : String) (h : (ParseInt s 10 8).2 = none) :
    IntNumeral s.data (ParseInt s 10 8).1 := by
  obtain ⟨t⟩ := s
  cases t with
  | nil => simp [ParseInt] at h
  | cons c cs =>
    rw [ParseInt_cons] at h ⊢
    generalize hr : ParseUint (if c = '+' ∨ c = '-' then cs else c :: cs) 10 8 = r at h ⊢
    obtain ⟨un, err⟩ := r
    cases err with
    | some e =>
      cases e with
      | invalid => simp at h
      | range =>
        have hmax := ParseUint_range _ (by rw [hr])
        rw [hr] at hmax
        simp only at hmax
        subst hmax
        by_cases hneg : c = '-' <;> simp [hneg, maxUint64] at h
    | none =>
      obtain ⟨hne, hds, hval⟩ := ParseUint_ok _ (by rw [hr])
      rw [hr] at hval
      have hun : un = decimalValue (if c = '+' ∨ c = '-' then cs else c :: cs) := by
        injection hval
      by_cases hplus : c = '+'
      · subst hplus
        rw [if_pos (Or.inl rfl)] at hne hds hun
        simp only at h ⊢
        split at h
        · cases h
        · split at h
          · cases h
          · rename_i h1 h2
            rw [if_neg h1, if_neg h2]
            exact ⟨cs, hne, hds, Or.inr (Or.inl ⟨rfl, by simp [hun]⟩)⟩
      · by_cases hminus : c = '-'
        · subst hminus
          rw [if_pos (Or.inr rfl)] at hne hds hun
          simp only at h ⊢
          split at h
          · cases h
          · split at h
            · cases h
            · rename_i h1 h2
              rw [if_neg h1, if_neg h2]
              exact ⟨cs, hne, hds, Or.inr (Or.inr ⟨rfl, by simp [hun]⟩)⟩
        · rw [if_neg (by simp [hplus, hminus])] at hne hds hun
          simp only at h ⊢
          split at h
          · cases h
          · split at h
            · cases h
            · rename_i h1 h2
              rw [if_neg h1, if_neg h2]
              exact ⟨c :: cs, hne, hds, Or.inl ⟨rfl, by simp [hun, hminus]⟩⟩

/-! ## Trimming -/

/-- Membership in the cutset `%`. -/
theorem percent_cutset (c : Char) : ("%" : String).data.contains c = decide (c = '%') := by
  show (['%'] : List Char).contains c = decide (c = '%')
  by_cases h : c = '%' <;> simp [h]

/-- `TrimRight` with cutset `%` removes some number of percent signs from the
end. -/
theorem TrimRight_percent_split (s : String) :
    ∃ k, s.data = (TrimRight s "%").data ++ List.replicate k '%' := by
  refine ⟨(s.data.reverse.takeWhile (fun c => ("%" : String).data.contains c)).length, ?_⟩
  have h := List.takeWhile_append_dropWhile (fun c => ("%" : String).data.contains c)
    s.data.reverse
  have hall : ∀ b ∈ (s.data.reverse.takeWhile (fun c => ("%" : String).data.contains c)).reverse,
      b = '%' := by
    intro b hb
    have := List.mem_takeWhile_imp (List.mem_reverse.1 hb)
    rw [percent_cutset] at this
    exact of_decide_eq_true this
  have hrep : (s.data.reverse.takeWhile (fun c => ("%" : String).data.contains c)).reverse
      = List.replicate
          (s.data.reverse.takeWhile (fun c => ("%" : String).data.contains c)).length '%' :=
    List.eq_replicate_iff.2 ⟨by simp, hall⟩
  have h2 := congrArg List.reverse h
  rw [List.reverse_append, List.reverse_reverse] at h2
  rw [← hrep]
  exact h2.symm

/-- `TrimRight` with cutset `%` gives back a text that does not end in a
percent sign when percent signs were appended to it. -/
theorem TrimRight_percent_append (t : List Char) (k : Nat)
    (hlast : ∀ c, t.getLast? = some c → c ≠ '%') :
    TrimRight ⟨t ++ List.replicate k '%'⟩ "%" = ⟨t⟩ := by
  unfold TrimRight
  congr 1
  simp only [List.reverse_append, List.reverse_replicate]
  have hdrop : ∀ (k : Nat) (l : List Char),
      (List.replicate k '%' ++ l).dropWhile (fun c => ("%" : String).data.contains c)
        = l.dropWhile (fun c => ("%" : String).data.contains c) := by
    intro k l
    induction k with
    | zero => rfl
    | succ k ih =>
      rw [List.replicate_succ, List.cons_append, List.dropWhile_cons, percent_cutset]
      simp
  rw [hdrop]
  cases hrev : t.reverse with
  | nil =>
    have : t = [] := by simpa using hrev
    subst this; rfl
  | cons c l =>
    have hc : t.getLast? = some c := by
      rw [List.getLast?_eq_head?_reverse, hrev]; rfl
    have hne := hlast c hc
    rw [List.dropWhile_cons, percent_cutset, decide_eq_false hne]
    simp only [Bool.false_eq_true, ↓reduceIte]
    rw [← hrev, List.reverse_reverse]

/-- An integer numeral ends in a digit, not in a percent sign. -/
theorem IntNumeral_last (t : List Char) (z : Int) (h : IntNumeral t z) :
    ∀ c, t.getLast? = some c → c ≠ '%' := by
  obtain ⟨ds, hne, hds, h⟩ := h
  have hlast : ∀ c, ds.getLast? = some c → c ≠ '%' := by
    intro c hc hpc
    have hmem : c ∈ ds := List.mem_of_getLast?_eq_some hc
    exact percent_not_digit (hpc ▸ hds c hmem)
  obtain ⟨c0, cs0, rfl⟩ := List.exists_cons_of_ne_nil hne
  rcases h with ⟨rfl, -⟩ | ⟨rfl, -⟩ | ⟨rfl, -⟩
  · exact hlast
  · intro c hc
    exact hlast c (by simpa [List.getLast?_cons_cons] using hc)
  · intro c hc
    exact hlast c (by simpa [List.getLast?_cons_cons] using hc)

/-! ## The storage-usage check -/

/-- The command `getDiskUsage` runs for the storage disk. -/
theorem getDiskUsage_command (driver : Driver) :
    getDiskUsage driver StorageDisk
      = if (driver.RunSSHCommandFromDriver
            "df -h /mnt/sda1 | awk \x27FNR > 1 \x7bprint $5\x7d\x27").2.isSome then "ERR"
        else Trim (driver.RunSSHCommandFromDriver
            "df -h /mnt/sda1 | awk \x27FNR > 1 \x7bprint $5\x7d\x27").1 "\n" := by
  rfl

/-- On a figure that parses as the integer `z`, `ParseInt` after `TrimRight`
yields `z` if `z` fits `int8` and a range error otherwise. -/
theorem parse_usage_figure (fig : String) (z : Int) (h : UsageFigure fig z) :
    (-128 ≤ z ∧ z ≤ 127 ∧ ParseInt (TrimRight fig "%") 10 8 = (z, none)) ∨
    ((z < -128 ∨ 127 < z) ∧ (ParseInt (TrimRight fig "%") 10 8).2 = some .range) := by
  obtain ⟨t, k, hfig, hnum⟩ := h
  have hf : fig = ⟨t ++ List.replicate k '%'⟩ := by
    rw [← hfig]
  have htrim : TrimRight fig "%" = ⟨t⟩ := by
    rw [hf]; exact TrimRight_percent_append t k (IntNumeral_last t z hnum)
  rw [htrim]
  by_cases hr : -128 ≤ z ∧ z ≤ 127
  · exact Or.inl ⟨hr.1, hr.2, ParseInt_numeral_inRange t z hnum hr.1 hr.2⟩
  · exact Or.inr ⟨by omega, ParseInt_numeral_outOfRange t z hnum (by omega)⟩

/-- If `ParseInt` after `TrimRight` succeeds, the figure parses as an integer. -/
theorem usage_figure_of_parse (fig : String)
    (h : (ParseInt (TrimRight fig "%") 10 8).2 = none) :
    UsageFigure fig (ParseInt (TrimRight fig "%") 10 8).1 := by
  obtain ⟨k, hk⟩ := TrimRight_percent_split fig
  exact ⟨(TrimRight fig "%").data, k, hk, ParseInt_ok _ h⟩

/-- The text `ERR` is not a usage figure. -/
theorem err_not_figure : ¬ ∃ z : Int, UsageFigure "ERR" z := by
  rintro ⟨z, h⟩
  rcases parse_usage_figure "ERR" z h with ⟨_, _, h⟩ | ⟨_, h⟩
  · have h2 : (ParseInt (TrimRight "ERR" "%") 10 8).2 = none := by rw [h]
    exact absurd h2 (by decide)
  · exact absurd h (by decide)

/-- C6: for every disk-usage figure `getDiskUsage` yields that parses as an
integer from 0 to 100 (optionally followed by `%`), `checkStorageUsage`
returns false exactly when the figure is at or above 98, and true otherwise;
for every figure that does not parse as an integer it returns false, and so it
does when the remote command fails, where the figure is the text `ERR`.
The figures `45%` and `85%` pass, `99%` fails, `n/a` fails. -/
theorem checkStorageUsage_result (driver : Driver) (e : Env σ) :
    (∀ z : Int, UsageFigure (getDiskUsage driver StorageDisk) z → 0 ≤ z → z ≤ 100 →
      ((checkStorageUsage driver e).1 = false ↔ 98 ≤ z) ∧
      ((checkStorageUsage driver e).1 = true ↔ z < 98)) ∧
    ((¬ ∃ z : Int, UsageFigure (getDiskUsage driver StorageDisk) z) →
      (checkStorageUsage driver e).1 = false) ∧
    ((driver.RunSSHCommandFromDriver
        "df -h /mnt/sda1 | awk \x27FNR > 1 \x7bprint $5\x7d\x27").2 ≠ none →
      getDiskUsage driver StorageDisk = "ERR" ∧ (checkStorageUsage driver e).1 = false) ∧
    (checkStorageUsage (sampleDriver ("", none) ("", none) ("45%\n", none))
      (sampleProc (fun _ => false) (fun _ => "")).env).1 = true ∧
    (checkStorageUsage (sampleDriver ("", none) ("", none) ("85%\n", none))
      (sampleProc (fun _ => false) (fun _ => "")).env).1 = true ∧
    (checkStorageUsage (sampleDriver ("", none) ("", none) ("99%\n", none))
      (sampleProc (fun _ => false) (fun _ => "")).env).1 = false ∧
    (checkStorageUsage (sampleDriver ("", none) ("", none) ("n/a\n", none))
      (sampleProc (fun _ => false) (fun _ => "")).env).1 = false := by
  have hnone : (¬ ∃ z : Int, UsageFigure (getDiskUsage driver StorageDisk) z) →
      (checkStorageUsage driver e).1 = false := by
    intro hno
    by_cases herr : (ParseInt (TrimRight (getDiskUsage driver StorageDisk) "%") 10 8).2 = none
    · exact absurd ⟨_, usage_figure_of_parse _ herr⟩ hno
    · have hs : (ParseInt (TrimRight (getDiskUsage driver StorageDisk) "%") 10 8).2.isSome
          = true := by
        cases h : (ParseInt (TrimRight (getDiskUsage driver StorageDisk) "%") 10 8).2 with
        | none => exact absurd h herr
        | some _ => rfl
      simp only [checkStorageUsage, hs, if_true]
  refine ⟨fun z hz h0 h100 => ?_, hnone, fun herr => ?_, by decide, by decide, by decide,
    by decide⟩
  · rcases parse_usage_figure _ z hz with ⟨_, _, hp⟩ | ⟨hout, _⟩
    · simp only [checkStorageUsage, hp]
      by_cases h98 : z < 98
      · simp [h98]
      · simp [h98]; omega
    · omega
  · have hfig : getDiskUsage driver StorageDisk = "ERR" := by
      rw [getDiskUsage_command]
      cases h : (driver.RunSSHCommandFromDriver
        "df -h /mnt/sda1 | awk \x27FNR > 1 \x7bprint $5\x7d\x27").2 with
      | none => exact absurd h herr
      | some _ => rfl
    refine ⟨hfig, hnone ?_⟩
    rw [hfig]
    exact err_not_figure

/-- Witness of C6: at the threshold, the figure `97%` passes and the figure
`98%` fails. -/
theorem checkStorageUsage_result_witness :
    UsageFigure (getDiskUsage (sampleDriver ("", none) ("", none) ("97%\n", none))
      StorageDisk) 97 ∧
    (checkStorageUsage (sampleDriver ("", none) ("", none) ("97%\n", none))
      (sampleProc (fun _ => false) (fun _ => "")).env).1 = true ∧
    UsageFigure (getDiskUsage (sampleDriver ("", none) ("", none) ("98%\n", none))
      StorageDisk) 98 ∧
    (checkStorageUsage (sampleDriver ("", none) ("", none) ("98%\n", none))
      (sampleProc (fun _ => false) (fun _ => "")).env).1 = false := by
  have h97 : UsageFigure (getDiskUsage (sampleDriver ("", none) ("", none) ("97%\n", none))
      StorageDisk) 97 :=
    ⟨['9', '7'], 1, by decide, ['9', '7'], by decide, by decide, Or.inl ⟨rfl, by decide⟩⟩
  have h98 : UsageFigure (getDiskUsage (sampleDriver ("", none) ("", none) ("98%\n", none))
      StorageDisk) 98 :=
    ⟨['9', '8'], 1, by decide, ['9', '8'], by decide, by decide, Or.inl ⟨rfl, by decide⟩⟩
  exact ⟨h97,
    (((checkStorageUsage_result (sampleDriver ("", none) ("", none) ("97%\n", none))
      (sampleProc (fun _ => false) (fun _ => "")).env).1 97 h97 (by decide) (by decide)).2).2
      (by decide),
    h98,
    (((checkStorageUsage_result (sampleDriver ("", none) ("", none) ("98%\n", none))
      (sampleProc (fun _ => false) (fun _ => "")).env).1 98 h98 (by decide) (by decide)).1).2
      (by decide)⟩

/-- C10 as stated fails: the figure `99%` parses as the integer 99, which
exceeds 80, and `checkStorageUsage` prints the figure without the marker. -/
theorem no_marker_at_99 :
    getDiskUsage (sampleDriver ("", none) ("", none) ("99%\n", none)) StorageDisk = "99%" ∧
    UsageFigure "99%" 99 ∧ (80 : Int) < 99 ∧
    (checkStorageUsage (sampleDriver ("", none) ("", none) ("99%\n", none))
      (sampleProc (fun _ => false) (fun _ => "")).env).2.stdout = "99% " := by
  refine ⟨by decide, ⟨['9', '9'], 1, rfl, ['9', '9'], by decide, by decide,
    Or.inl ⟨rfl, by decide⟩⟩, by decide, by decide⟩

/-- C10, amended: for every disk-usage figure `getDiskUsage` yields that
parses as an integer, `checkStorageUsage` prints the figure and a blank, and
after it the marker `!!! ` exactly when the usage is above 80 and below 98; it
prints no marker when the usage is 80 or below, nor when it is 98 or above. -/
theorem checkStorageUsage_marker (driver : Driver) (e : Env σ) (z : Int)
    (h : UsageFigure (getDiskUsage driver StorageDisk) z) :
    (checkStorageUsage driver e).2
      = if 80 < z ∧ z < 98 then
          (e.print (getDiskUsage driver StorageDisk ++ " ")).print "!!! "
        else e.print (getDiskUsage driver StorageDisk ++ " ") := by
  rcases parse_usage_figure _ z h with ⟨_, _, hp⟩ | ⟨hout, hp⟩
  · simp only [checkStorageUsage, hp]
    by_cases h80 : 80 < z ∧ z < 98
    · have := h80.2
      simp [h80, this]
    · by_cases h98 : z < 98
      · simp [h80, h98]
      · simp [h80, h98]
  · have hs : (ParseInt (TrimRight (getDiskUsage driver StorageDisk) "%") 10 8).2.isSome
        = true := by rw [hp]; rfl
    simp only [checkStorageUsage, hs, if_true]
    rw [if_neg (by omega)]

/-- Witness of the amended C10: the figure `85%` is printed with the marker
and the figure `45%` without. -/
theorem checkStorageUsage_marker_witness :
    UsageFigure (getDiskUsage (sampleDriver ("", none) ("", none) ("85%\n", none))
      StorageDisk) 85 ∧
    (checkStorageUsage (sampleDriver ("", none) ("", none) ("85%\n", none))
      (sampleProc (fun _ => false) (fun _ => "")).env).2.stdout = "85% !!! " ∧
    (checkStorageUsage (sampleDriver ("", none) ("", none) ("45%\n", none))
      (sampleProc (fun _ => false) (fun _ => "")).env).2.stdout = "45% " := by
  have hfig : UsageFigure (getDiskUsage (sampleDriver ("", none) ("", none) ("85%\n", none))
      StorageDisk) 85 :=
    ⟨['8', '5'], 1, by decide, ['8', '5'], by decide, by decide, Or.inl ⟨rfl, by decide⟩⟩
  have h := checkStorageUsage_marker (sampleDriver ("", none) ("", none) ("85%\n", none))
    (sampleProc (fun _ => false) (fun _ => "")).env 85 hfig
  refine ⟨hfig, ?_, by decide⟩
  rw [h]
  decide

/-! ## Address parsing -/

/-- On decimal digits followed by something else the loop of `dtoi` computes
the number and the count of digits. -/
theorem dtoiLoop_digits (ds rest : List Char) (n i : Nat)
    (hds : ∀ c ∈ ds, isDecimalDigit c)
    (hrest : ∀ c, rest.head? = some c → ¬ isDecimalDigit c)
    (hbig : decimalFrom n ds < big) (hi : i + ds.length ≠ 0) :
    dtoiLoop (ds ++ rest) n i = (decimalFrom n ds, i + ds.length, true) := by
  induction ds generalizing n i with
  | nil =>
    have hi0 : i ≠ 0 := by simpa using hi
    cases rest with
    | nil => simp [dtoiLoop, decimalFrom, hi0]
    | cons c rest =>
      have hc : ¬ ('0' ≤ c ∧ c ≤ '9') := hrest c rfl
      simp only [List.nil_append, dtoiLoop, if_neg hc, if_neg hi0]
      simp [decimalFrom]
  | cons d ds ih =>
    have hd : '0' ≤ d ∧ d ≤ '9' := hds d (List.mem_cons_self _ _)
    have hstep : decimalFrom n (d :: ds) = decimalFrom (n * 10 + (d.toNat - '0'.toNat)) ds := rfl
    have hle := le_decimalFrom ds (n * 10 + (d.toNat - '0'.toNat))
    rw [hstep] at hbig
    have e := ih (n * 10 + (d.toNat - '0'.toNat)) (i + 1)
      (fun c hc => hds c (List.mem_cons_of_mem _ hc)) hbig (by omega)
    simp only [List.cons_append, dtoiLoop, if_pos hd, List.append_eq]
    rw [if_neg (by omega), e, hstep]
    simp only [List.length_cons]
    congr 2
    omega

/-- Applying `dtoi` to an octet numeral followed by something else. -/
theorem dtoi_octet (o rest : List Char) (ho : isOctetNumeral o)
    (hrest : ∀ c, rest.head? = some c → ¬ isDecimalDigit c) :
    dtoi (o ++ rest) = (decimalValue o, o.length, true) := by
  obtain ⟨hne, hds, hval, -⟩ := ho
  have hlen : 0 + o.length ≠ 0 := by
    cases o with
    | nil => exact absurd rfl hne
    | cons _ _ => simp
  have h := dtoiLoop_digits o rest 0 0 hds hrest
    (by unfold decimalValue at hval; unfold big; omega) hlen
  simpa [dtoi, decimalValue] using h

/-- The dot is not a digit. -/
theorem dot_not_digit : ¬ isDecimalDigit '.' := by
  unfold isDecimalDigit; decide

/-- One round of the loop of `parseIPv4` on an octet numeral. -/
theorem parseIPv4Octets_step (k : Nat) (first : Bool) (o rest : List Char)
    (ho : isOctetNumeral o) (hrest : ∀ c, rest.head? = some c → ¬ isDecimalDigit c) :
    parseIPv4Octets (k + 1) first (if first then o ++ rest else '.' :: (o ++ rest))
      = match parseIPv4Octets k false rest with
        | none => none
        | some (p, r) => some (decimalValue o :: p, r) := by
  have hne := ho.1
  have hval := ho.2.2.1
  obtain ⟨c0, cs0, rfl⟩ := List.exists_cons_of_ne_nil hne
  have hd := dtoi_octet (c0 :: cs0) rest ho hrest
  cases first with
  | true =>
    simp only [parseIPv4Octets, if_true]
    rw [if_neg (by simp), hd]
    simp only []
    rw [if_neg (by simp; omega), List.drop_left]
  | false =>
    simp only [parseIPv4Octets, Bool.false_eq_true, if_false]
    rw [if_neg (by simp), hd]
    simp only []
    rw [if_neg (by simp; omega), List.drop_left]

/-- An IPv4 literal parses to the address its octets denote. -/
theorem parseIPv4_literal (o1 o2 o3 o4 : List Char) (h1 : isOctetNumeral o1)
    (h2 : isOctetNumeral o2) (h3 : isOctetNumeral o3) (h4 : isOctetNumeral o4) :
    parseIPv4 (o1 ++ '.' :: (o2 ++ '.' :: (o3 ++ '.' :: o4)))
      = some (IPv4 (decimalValue o1) (decimalValue o2) (decimalValue o3) (decimalValue o4)) := by
  have hdot : ∀ (l : List Char) (c : Char), ('.' :: l).head? = some c → ¬ isDecimalDigit c := by
    intro l c hc
    have : c = '.' := by simpa using hc.symm
    rw [this]; exact dot_not_digit
  have hnil : ∀ c : Char, ([] : List Char).head? = some c → ¬ isDecimalDigit c := by
    intro c hc; cases hc
  have e1 := parseIPv4Octets_step 3 true o1 ('.' :: (o2 ++ '.' :: (o3 ++ '.' :: o4))) h1
    (hdot _)
  have e2 := parseIPv4Octets_step 2 false o2 ('.' :: (o3 ++ '.' :: o4)) h2 (hdot _)
  have e3 := parseIPv4Octets_step 1 false o3 ('.' :: o4) h3 (hdot _)
  have e4 := parseIPv4Octets_step 0 false o4 [] h4 hnil
  simp only [if_true, Bool.false_eq_true, if_false, List.append_nil] at e1 e2 e3 e4
  unfold parseIPv4 IPv4len
  rw [e1, e2, e3, e4]
  simp [parseIPv4Octets]

/-- The first dot or colon of an IPv4 literal is a dot. -/
theorem find_dot (o rest : List Char) (ho : ∀ c ∈ o, isDecimalDigit c) :
    (o ++ '.' :: rest).find? (fun c => decide (c = '.' ∨ c = ':')) = some '.' := by
  induction o with
  | nil => simp
  | cons d o ih =>
    have hd := ho d (List.mem_cons_self _ _)
    have h1 : d ≠ '.' := fun hh => dot_not_digit (hh ▸ hd)
    have h2 : d ≠ ':' := fun hh => by
      rw [hh] at hd; exact absurd hd (by unfold isDecimalDigit; decide)
    rw [List.cons_append, List.find?_cons]
    simp only [h1, h2, or_self, decide_False]
    exact ih (fun c hc => ho c (List.mem_cons_of_mem _ hc))

/-- `ParseIP` and `To4` accept every IPv4 literal. -/
theorem ParseIP_literal (s : String) (h : IsIPv4Literal s) :
    ∃ a b c d, ParseIP s = some (IPv4 a b c d) := by
  obtain ⟨o1, o2, o3, o4, h1, h2, h3, h4, hs⟩ := h
  refine ⟨decimalValue o1, decimalValue o2, decimalValue o3, decimalValue o4, ?_⟩
  unfold ParseIP
  rw [hs, find_dot o1 _ h1.2.1]
  exact parseIPv4_literal o1 o2 o3 o4 h1 h2 h3 h4

/-- What `parseIPv4` yields is an address of the form `IPv4 a b c d`. -/
theorem parseIPv4_form (s : List Char) (ip : IP) (h : parseIPv4 s = some ip) :
    ∃ a b c d, ip = IPv4 a b c d := by
  unfold parseIPv4 at h
  split at h
  · rename_i a b c d _
    exact ⟨a, b, c, d, by injection h with h; exact h.symm⟩
  · cases h

/-- The main loop of `parseIPv6` keeps the length of the address. -/
theorem parseIPv6Loop_length (slots : Nat) (ip : IP) (ellipsis : Option Nat)
    (s : List Char) (r : IP × Option Nat × Nat × List Char)
    (h : parseIPv6Loop slots ip ellipsis s = some r) : r.1.length = ip.length := by
  induction slots generalizing ip ellipsis s with
  | zero =>
    simp only [parseIPv6Loop] at h
    cases h; rfl
  | succ slots ih =>
    simp only [parseIPv6Loop] at h
    repeat' (split at h)
    all_goals first
      | (cases h <;> simp [List.length_set])
      | (have hl := ih _ _ _ h; simpa [List.length_set] using hl)

/-- Writing single bytes keeps the length of the address. -/
theorem foldl_length (step : IP → Nat → IP) (hstep : ∀ ip j, (step ip j).length = ip.length)
    (js : List Nat) (ip : IP) : (js.foldl step ip).length = ip.length := by
  induction js generalizing ip with
  | nil => rfl
  | cons j js ih => rw [List.foldl_cons, ih, hstep]

/-- The end of `parseIPv6` keeps the length of the address. -/
theorem parseIPv6Finish_length (ip0 : IP) (ellipsis : Option Nat) (i : Nat)
    (s : List Char) (ip : IP) (h : parseIPv6Finish ip0 ellipsis i s = some ip) :
    ip.length = ip0.length := by
  unfold parseIPv6Finish at h
  split at h
  · cases h
  · split at h
    · split at h
      · cases h
      · cases h
        rw [foldl_length _ (fun ip j => List.length_set _ _ _),
          foldl_length _ (fun ip j => List.length_set _ _ _)]
    · split at h
      · cases h
      · cases h; rfl

/-- The loop of `parseIPv6` and its end keep the length of the address. -/
theorem parseIPv6Rest_length (ip0 : IP) (ellipsis : Option Nat) (s : List Char) (ip : IP)
    (h : parseIPv6Rest ip0 ellipsis s = some ip) : ip.length = ip0.length := by
  unfold parseIPv6Rest at h
  split at h
  · cases h
  · rename_i hloop
    rw [parseIPv6Finish_length _ _ _ _ _ h]
    exact parseIPv6Loop_length _ _ _ _ _ hloop

/-- What `parseIPv6` yields has 16 bytes. -/
theorem parseIPv6_length (s : List Char) (ip : IP) (h : parseIPv6 s = some ip) :
    ip.length = 16 := by
  unfold parseIPv6 at h
  split at h
  · dsimp only at h
    split at h
    · cases h; rfl
    · rw [parseIPv6Rest_length _ _ _ _ h]; rfl
  · rw [parseIPv6Rest_length _ _ _ _ h]; rfl

/-- What `ParseIP` yields has 16 bytes. -/
theorem ParseIP_length (s : String) (ip : IP) (h : ParseIP s = some ip) : ip.length = 16 := by
  unfold ParseIP at h
  split at h
  · obtain ⟨a, b, c, d, rfl⟩ := parseIPv4_form _ _ h
    rfl
  · exact parseIPv6_length _ _ h
  · cases h

/-- A list of positive length has a head. -/
theorem cons_of_length {l : List Nat} {n : Nat} (h : l.length = n + 1) :
    ∃ x t, l = x :: t ∧ t.length = n := by
  cases l with
  | nil => cases h
  | cons x t => exact ⟨x, t, rfl, by simpa using h⟩

/-- Among 16-byte addresses `To4` accepts those of the form `IPv4 a b c d`. -/
theorem To4_form (ip : IP) (hlen : ip.length = 16) (h : (To4 ip).isSome = true) :
    ∃ a b c d, ip = IPv4 a b c d := by
  obtain ⟨x0, t0, rfl, h0⟩ := cons_of_length hlen
  obtain ⟨x1, t1, rfl, h1⟩ := cons_of_length h0
  obtain ⟨x2, t2, rfl, h2⟩ := cons_of_length h1
  obtain ⟨x3, t3, rfl, h3⟩ := cons_of_length h2
  obtain ⟨x4, t4, rfl, h4⟩ := cons_of_length h3
  obtain ⟨x5, t5, rfl, h5⟩ := cons_of_length h4
  obtain ⟨x6, t6, rfl, h6⟩ := cons_of_length h5
  obtain ⟨x7, t7, rfl, h7⟩ := cons_of_length h6
  obtain ⟨x8, t8, rfl, h8⟩ := cons_of_length h7
  obtain ⟨x9, t9, rfl, h9⟩ := cons_of_length h8
  obtain ⟨x10, t10, rfl, h10⟩ := cons_of_length h9
  obtain ⟨x11, t11, rfl, h11⟩ := cons_of_length h10
  obtain ⟨x12, t12, rfl, h12⟩ := cons_of_length h11
  obtain ⟨x13, t13, rfl, h13⟩ := cons_of_length h12
  obtain ⟨x14, t14, rfl, h14⟩ := cons_of_length h13
  obtain ⟨x15, t15, rfl, h15⟩ := cons_of_length h14
  have ht : t15 = [] := List.length_eq_zero.1 h15
  subst ht
  refine ⟨x12, x13, x14, x15, ?_⟩
  simp only [To4, IPv4len, IPv6len, isZeros, List.length_cons, List.length_nil] at h
  rw [if_neg (by decide)] at h
  split at h
  · rename_i hc
    obtain ⟨-, hz, h10, h11⟩ := hc
    simp at hz h10 h11
    obtain ⟨rfl, rfl, rfl, rfl, rfl, rfl, rfl, rfl, rfl, rfl⟩ := hz
    subst h10 h11
    rfl
  · cases h

/-- The test of `checkInstanceIP`, in terms of the parsed address. -/
theorem parse_to4 (s : String) :
    ((ParseIP s).bind To4).isSome = true ↔ ∃ a b c d, ParseIP s = some (IPv4 a b c d) := by
  constructor
  · intro h
    cases hp : ParseIP s with
    | none => rw [hp] at h; cases h
    | some ip =>
      rw [hp] at h
      obtain ⟨a, b, c, d, rfl⟩ := To4_form ip (ParseIP_length s ip hp) h
      exact ⟨a, b, c, d, rfl⟩
  · rintro ⟨a, b, c, d, h⟩
    rw [h]; rfl

/-- C8 as stated fails: the address text `::ffff:10.0.2.15` is not an IPv4
literal, it is the IPv6 notation of an IPv4-mapped address, and
`checkInstanceIP` returns true for it. -/
theorem mapped_address_passes :
    (sampleDriver ("::ffff:10.0.2.15", none) ("", none) ("", none)).GetIP.2 = none ∧
    ¬ IsIPv4Literal "::ffff:10.0.2.15" ∧
    (checkInstanceIP (sampleDriver ("::ffff:10.0.2.15", none) ("", none) ("", none))
      (sampleProc (fun _ => false) (fun _ => "")).env).1 = true := by
  refine ⟨rfl, ?_, by decide⟩
  rintro ⟨o1, o2, o3, o4, h1, -, -, -, hs⟩
  obtain ⟨hne, hds, -, -⟩ := h1
  obtain ⟨c, cs, rfl⟩ := List.exists_cons_of_ne_nil hne
  have hc : c = ':' := by
    have := congrArg List.head? hs
    simpa using this.symm
  have hdig := hds c (List.mem_cons_self _ _)
  rw [hc] at hdig
  exact absurd hdig (by unfold isDecimalDigit; decide)

/-- C8, amended: `checkInstanceIP` returns true exactly when `driver.GetIP`
returns no error and the address text parses, by `net.ParseIP`, to an address
in IPv4 form (`IPv4 a b c d`).  Every IPv4 literal does; so does the IPv6
notation of an IPv4-mapped address, such as `::ffff:10.0.2.15`.  The check
returns false for every `GetIP` error, for every text that does not parse
(the empty text among them) and for every address that parses but is not in
IPv4 form (IPv6 only).  `10.0.2.15` passes, `fe80::1` fails, `not an address`
fails.  The check leaves the environment as it is. -/
theorem checkInstanceIP_iff (driver : Driver) (e : Env σ) :
    ((checkInstanceIP driver e).1 = true ↔
      driver.GetIP.2 = none ∧ ∃ a b c d, ParseIP driver.GetIP.1 = some (IPv4 a b c d)) ∧
    (driver.GetIP.2 = none → IsIPv4Literal driver.GetIP.1 →
      (checkInstanceIP driver e).1 = true) ∧
    (driver.GetIP.2 ≠ none → (checkInstanceIP driver e).1 = false) ∧
    (ParseIP driver.GetIP.1 = none → (checkInstanceIP driver e).1 = false) ∧
    (∀ ip, ParseIP driver.GetIP.1 = some ip → (∀ a b c d, ip ≠ IPv4 a b c d) →
      (checkInstanceIP driver e).1 = false) ∧
    (checkInstanceIP driver e).2 = e ∧
    ParseIP "" = none ∧
    (checkInstanceIP (sampleDriver ("10.0.2.15", none) ("", none) ("", none))
      (sampleProc (fun _ => false) (fun _ => "")).env).1 = true ∧
    (checkInstanceIP (sampleDriver ("::ffff:10.0.2.15", none) ("", none) ("", none))
      (sampleProc (fun _ => false) (fun _ => "")).env).1 = true ∧
    (checkInstanceIP (sampleDriver ("fe80::1", none) ("", none) ("", none))
      (sampleProc (fun _ => false) (fun _ => "")).env).1 = false ∧
    (checkInstanceIP (sampleDriver ("not an address", none) ("", none) ("", none))
      (sampleProc (fun _ => false) (fun _ => "")).env).1 = false ∧
    (checkInstanceIP (sampleDriver ("", none) ("", none) ("", none))
      (sampleProc (fun _ => false) (fun _ => "")).env).1 = false ∧
    (checkInstanceIP (sampleDriver ("10.0.2.15", some "no address") ("", none) ("", none))
      (sampleProc (fun _ => false) (fun _ => "")).env).1 = false := by
  have hiff : (checkInstanceIP driver e).1 = true ↔
      driver.GetIP.2 = none ∧ ∃ a b c d, ParseIP driver.GetIP.1 = some (IPv4 a b c d) := by
    rw [← parse_to4]
    unfold checkInstanceIP
    by_cases hc : driver.GetIP.2.isNone = true ∧
        ((ParseIP driver.GetIP.1).bind To4).isSome = true
    · simp only [if_pos hc, true_iff]
      exact ⟨Option.isNone_iff_eq_none.1 hc.1, hc.2⟩
    · simp only [if_neg hc, Bool.false_eq_true, false_iff]
      rintro ⟨h1, h2⟩
      exact hc ⟨Option.isNone_iff_eq_none.2 h1, h2⟩
  have hfalse : ∀ {P : Prop}, ((checkInstanceIP driver e).1 = true ↔ P) → ¬ P →
      (checkInstanceIP driver e).1 = false := by
    intro P h hn
    cases hb : (checkInstanceIP driver e).1 with
    | false => rfl
    | true => exact absurd (h.1 hb) hn
  refine ⟨hiff, fun herr hlit => hiff.2 ⟨herr, ParseIP_literal _ hlit⟩,
    fun herr => hfalse hiff (fun h => herr h.1),
    fun hp => hfalse hiff (fun h => ?_),
    fun ip hp hno => hfalse hiff (fun h => ?_),
    ?_, by decide, by decide, by decide, by decide, by decide, by decide, by decide⟩
  · obtain ⟨-, a, b, c, d, h⟩ := h
    rw [hp] at h; cases h
  · obtain ⟨-, a, b, c, d, h⟩ := h
    rw [hp] at h
    injection h with h
    exact hno a b c d h
  · simp only [checkInstanceIP]
    split <;> rfl

/-- Witness of the amended C8: `10.0.2.15` is an IPv4 literal, and the check
passes on it. -/
theorem checkInstanceIP_iff_witness :
    (sampleDriver ("10.0.2.15", none) ("", none) ("", none)).GetIP.2 = none ∧
    IsIPv4Literal (sampleDriver ("10.0.2.15", none) ("", none) ("", none)).GetIP.1 ∧
    (checkInstanceIP (sampleDriver ("10.0.2.15", none) ("", none) ("", none))
      (sampleProc (fun _ => false) (fun _ => "")).env).1 = true := by
  have hlit : IsIPv4Literal (sampleDriver ("10.0.2.15", none) ("", none) ("", none)).GetIP.1 :=
    ⟨['1', '0'], ['0'], ['2'], ['1', '5'],
      by unfold isOctetNumeral; decide, by unfold isOctetNumeral; decide,
      by unfold isOctetNumeral; decide, by unfold isOctetNumeral; decide, by decide⟩
  exact ⟨rfl, hlit,
    (checkInstanceIP_iff (sampleDriver ("10.0.2.15", none) ("", none) ("", none))
      (sampleProc (fun _ => false) (fun _ => "")).env).2.1 rfl hlit⟩

end Preflight
